import Mathlib

/-!
Instance groups of owl::ll: reference counting and the accel build/refit lifecycle.

A shallow embedding of `src/owl/ll/InstanceGroup.cpp`.

Conventions of the embedding.

* `Group*` pointers are indices into the owning device's `groups` table; a null
  pointer is `none`.  Raw C arrays (`const affine3f *`, `const uint32_t *`) are
  functions from the index to the element, a null array is `none`.
* `float` values are only copied by this code (plus the literals `0.f` and `1.f`),
  so the scalar type is a parameter `F` carrying a zero and a one.
* `assert(..)` is modelled as compiled in: a failing assertion ends the call with
  `Failure.assertion`.  Behaviour that C++ leaves undefined (indexing a vector out
  of range, reading through a null array) ends the call with `Failure.undefined`.
* Every operation returns the exit status together with the state it leaves
  behind, so that the state after a failed call can be inspected.
* The OptiX backend is a parameter (`Backend`); every call made to it is appended
  to `World.calls`.
* `OPTIX_CHECK` and `CUDA_SYNC_CHECK` are macros defined outside `InstanceGroup.cpp`; a
  failing check leaves the function at once and surfaces to the caller, which is how the
  specification describes a backend build error.
* `owl::parallel_for` runs its iterations one after the other, in index order; whether
  `numTimesReferenced++` is atomic when iterations run concurrently is outside the embedding.
* Counts, sizes, handles and IDs are natural numbers.  The only arithmetic of this code
  is the loop counter `int childID`, `numRayTypes * getSBTOffset()` and
  `childID * sizeof(..)`; all are taken without wrap-around (overflow of an `int` is
  undefined in C++).
-/

namespace owl.ll

/-! ## Data model -/

/-- Three floats (`owl::common::vec3f`). -/
structure vec3f (F : Type) where
  x : F
  y : F
  z : F
deriving DecidableEq, Repr

/-- A 3x3 linear map given by its columns (`owl::common::linear3f`). -/
structure linear3f (F : Type) where
  vx : vec3f F
  vy : vec3f F
  vz : vec3f F
deriving DecidableEq, Repr

/-- An affine map: linear part `l`, translation `p` (`owl::common::affine3f`). -/
structure affine3f (F : Type) where
  l : linear3f F
  p : vec3f F
deriving DecidableEq, Repr

/-- The ways in which a call can end other than by returning normally. -/
inductive Failure where
  /-- an `assert(..)` did not hold -/
  | assertion
  /-- the `throw std::runtime_error(..)`: more children than `MAX_INSTANCES_PER_IAS` -/
  | runtime_error
  /-- an `OPTIX_CHECK(..)`-wrapped backend call did not return success -/
  | optix_check
  /-- the `CUDA_SYNC_CHECK()` reported an error -/
  | cuda_sync_check
  /-- the C++ behaviour is undefined at this point -/
  | undefined
deriving DecidableEq, Repr

/-- Exit status of a call. -/
inductive Exit where
  | ok
  | fail (e : Failure)
deriving DecidableEq, Repr

/-- Modelled from the spec: `DeviceMemory` (defined in a header outside `InstanceGroup.cpp`).
The spec lists `alloc(bytes)`, `upload`, `free()`, `size()`, `empty()`; a block is recorded by
its size in bytes, and it is empty when that size is 0. -/
structure DeviceMemory where
  sizeInBytes : Nat
deriving DecidableEq, Repr

/-- Modelled from the spec: `DeviceMemory::empty()`, true when the block holds no bytes. -/
def DeviceMemory.empty (m : DeviceMemory) : Bool := m.sizeInBytes == 0

/-- Modelled from the spec: `DeviceMemory::size()`, the size of the block in bytes. -/
def DeviceMemory.size (m : DeviceMemory) : Nat := m.sizeInBytes

/-- Modelled from the spec: `DeviceMemory::alloc(size)`, after which the block holds `size`
bytes. -/
def DeviceMemory.alloc (_m : DeviceMemory) (size : Nat) : DeviceMemory := ⟨size⟩

/-- Modelled from the spec: `DeviceMemory::free()`, after which the block is empty. -/
def DeviceMemory.free (_m : DeviceMemory) : DeviceMemory := ⟨0⟩

/-- The OptiX record `OptixInstance`, with the fields this code fills in. -/
structure OptixInstance (F : Type) where
  transform : List F
  instanceId : Nat
  sbtOffset : Nat
  visibilityMask : Nat
  flags : Nat
  traversableHandle : Nat
deriving DecidableEq, Repr

/-- The OptiX record `OptixMotionOptions`. -/
structure OptixMotionOptions (F : Type) where
  numKeys : Nat
  flags : Nat
  timeBegin : F
  timeEnd : F
deriving DecidableEq, Repr

/-- The OptiX record `OptixMatrixMotionTransform`: `transform` holds one 12-entry matrix per
key. -/
structure OptixMatrixMotionTransform (F : Type) where
  child : Nat
  motionOptions : OptixMotionOptions F
  transform : List (List F)
deriving DecidableEq, Repr

/-- The part of an `InstanceGroup` object that it adds to its `Group` base. -/
structure InstanceGroup (F : Type) where
  /-- the vector `std::vector<Group *> children` -/
  children : List (Option Nat)
  /-- the array `transforms[0]` -/
  transforms0 : Option (Nat → affine3f F)
  /-- the array `transforms[1]` -/
  transforms1 : Option (Nat → affine3f F)
  /-- the array `instanceIDs` -/
  instanceIDs : Option (Nat → Nat)
  /-- contents uploaded to `optixInstanceBuffer` -/
  optixInstanceBuffer : List (OptixInstance F)
  /-- contents uploaded to `motionTransformsBuffer` -/
  motionTransformsBuffer : List (OptixMatrixMotionTransform F)

/-- A `Group` object: the base-class fields, the value its virtual `getSBTOffset()` returns,
and the `InstanceGroup` part when the dynamic type is `InstanceGroup`. -/
structure Group (F : Type) where
  numTimesReferenced : Int
  traversable : Nat
  bvhMemory : DeviceMemory
  getSBTOffset : Nat
  instanceGroup : Option (InstanceGroup F)

/-- The operation kinds `OPTIX_BUILD_OPERATION_BUILD` and `OPTIX_BUILD_OPERATION_UPDATE`. -/
inductive OptixBuildOperation where
  | build
  | update
deriving DecidableEq, Repr

/-- The OptiX record `OptixAccelBufferSizes`. -/
structure OptixAccelBufferSizes where
  outputSizeInBytes : Nat
  tempSizeInBytes : Nat
  tempUpdateSizeInBytes : Nat
deriving DecidableEq, Repr

/-- A call made to the backend, with the arguments that matter here. -/
inductive BackendCall (F : Type) where
  /-- the query `optixDeviceContextGetProperty(.., LIMIT_MAX_INSTANCES_PER_IAS, ..)` -/
  | deviceContextGetProperty
  /-- a call of `optixConvertPointerToTraversableHandle` at a byte offset into
  `motionTransformsBuffer` -/
  | convertPointerToTraversableHandle (byteOffset : Nat)
  /-- a call of `optixAccelComputeMemoryUsage` on an instance array -/
  | accelComputeMemoryUsage (operation : OptixBuildOperation) (instances : List (OptixInstance F))
      (numInstances : Nat)
  /-- a call of `optixAccelBuild` on an instance array, with the temp and output buffer sizes -/
  | accelBuild (operation : OptixBuildOperation) (instances : List (OptixInstance F))
      (numInstances : Nat) (tempSize : Nat) (outputSize : Nat)
  /-- the `cudaDeviceSynchronize` inside `CUDA_SYNC_CHECK()` -/
  | deviceSynchronize
deriving DecidableEq, Repr

/-- The OptiX/CUDA backend, as far as this code calls it.  A result `none` is a call that
does not return success. -/
structure Backend (F : Type) where
  /-- value written by the `MAX_INSTANCES_PER_IAS` query; `none` when the query fails and
  leaves the variable at its initial 0 (the return code of this call is not checked) -/
  maxInstancesPerIAS : Option Nat
  /-- the value of `sizeof(OptixMatrixMotionTransform)` -/
  sizeofOptixMatrixMotionTransform : Nat
  convertPointerToTraversableHandle : Nat → Option Nat
  accelComputeMemoryUsage :
    OptixBuildOperation → List (OptixInstance F) → Option OptixAccelBufferSizes
  /-- returns the traversable handle written through `&traversable` -/
  accelBuild : OptixBuildOperation → List (OptixInstance F) → Nat → Nat → Option Nat
  /-- whether `CUDA_SYNC_CHECK()` passes -/
  deviceSynchronize : Bool

/-- The `Context` fields this code reads. -/
structure Context where
  /-- the CUDA device `pushActive` makes current -/
  cudaDeviceID : Int
  numRayTypes : Nat
deriving DecidableEq, Repr

/-- The state the code runs in: the device's group table, the CUDA device that is current,
and the backend calls made so far. -/
structure World (F : Type) where
  groups : List (Option (Group F))
  activeDevice : Int
  calls : List (BackendCall F)

variable {F : Type}

/-- Dereference a group pointer. -/
def World.group (w : World F) (id : Nat) : Option (Group F) :=
  (w.groups[id]?).join

/-- Write through a group pointer. -/
def World.modifyGroup (w : World F) (id : Nat) (f : Group F → Group F) : World F :=
  match w.group id with
  | some g => { w with groups := w.groups.set id (some (f g)) }
  | none => w

/-- Write the `InstanceGroup` part of the object a pointer refers to. -/
def World.modifyInstanceGroup (w : World F) (id : Nat)
    (f : InstanceGroup F → InstanceGroup F) : World F :=
  w.modifyGroup id (fun g => { g with instanceGroup := g.instanceGroup.map f })

/-- Reference count of the group at `id` (0 for a free table entry). -/
def World.refCount (w : World F) (id : Nat) : Int :=
  match w.group id with
  | some g => g.numTimesReferenced
  | none => 0

/-- Sum of the reference counts of all groups of the table. -/
def World.refCountSum (w : World F) : Int :=
  (w.groups.map (fun og => match og with
    | some g => g.numTimesReferenced
    | none => 0)).sum

/-- The children vector of the instance group at `id`. -/
def World.children (w : World F) (id : Nat) : List (Option Nat) :=
  match w.group id with
  | some g => match g.instanceGroup with
    | some ig => ig.children
    | none => []
  | none => []

/-- Read slot `slot` of the instance group at `id`: the child pointer stored there. -/
def World.getChild (w : World F) (id : Nat) (slot : Nat) : Option Nat :=
  ((w.children id)[slot]?).join

/-! ## Device::instanceGroupSetChild -/

/-- The statement `numTimesReferenced--` on a group object. -/
def Group.decRef (g : Group F) : Group F :=
  { g with numTimesReferenced := g.numTimesReferenced - 1 }

/-- The statement `numTimesReferenced++` on a group object. -/
def Group.incRef (g : Group F) : Group F :=
  { g with numTimesReferenced := g.numTimesReferenced + 1 }

/-- The statement `children[childNo] = newChild` on an instance group object. -/
def InstanceGroup.setSlot (childNo : Nat) (newChild : Nat) (d : InstanceGroup F) :
    InstanceGroup F :=
  { d with children := d.children.set childNo (some newChild) }

/-- Modelled from the spec: `Device::checkGetGroup` (declared in `Device.h`, its body is
outside `InstanceGroup.cpp`).  It returns the "valid" group for an ID; validity is taken to be the
three checks `instanceGroupCreate` asserts on a child group ID: non-negative, inside the table,
entry not null. -/
def checkGetGroup (w : World F) (groupID : Int) : Except Failure (Nat × Group F) :=
  if groupID < 0 then .error .assertion
  else if w.groups.length ≤ groupID.toNat then .error .assertion
  else match w.group groupID.toNat with
    | none => .error .assertion
    | some g => .ok (groupID.toNat, g)

/-- Modelled from the spec: `Device::checkGetInstanceGroup` (declared in `Device.h`): the valid
group for the ID, which must be an `InstanceGroup`. -/
def checkGetInstanceGroup (w : World F) (groupID : Int) :
    Except Failure (Nat × InstanceGroup F) :=
  match checkGetGroup w groupID with
  | .error e => .error e
  | .ok (id, g) =>
    match g.instanceGroup with
    | none => .error .assertion
    | some ig => .ok (id, ig)

/-- The function `Device::instanceGroupSetChild(groupID, childNo, childGroupID)`.
`ig->children[childNo]` is an unchecked `std::vector` access: outside the vector the
behaviour is undefined. -/
def instanceGroupSetChild (groupID childNo childGroupID : Int) (w : World F) :
    Exit × World F :=
  match checkGetInstanceGroup w groupID with
  | .error e => (.fail e, w)
  | .ok (ig, igData) =>
    match checkGetGroup w childGroupID with
    | .error e => (.fail e, w)
    | .ok (newChild, _) =>
      if childNo < 0 ∨ igData.children.length ≤ childNo.toNat then (.fail .undefined, w)
      else
        let oldChild := (igData.children[childNo.toNat]?).join
        let w1 := match oldChild with
          | some old => w.modifyGroup old Group.decRef
          | none => w
        let w2 := w1.modifyInstanceGroup ig (InstanceGroup.setSlot childNo.toNat newChild)
        let w3 := w2.modifyGroup newChild Group.incRef
        (.ok, w3)

/-! ## Device context -/

/-- Modelled from the spec: `Context::pushActive` (declared in `Device.h`, its body is outside
`InstanceGroup.cpp`).  The spec calls it the push of the target device at entry: it makes the context's CUDA
device the current one and returns the device that was current before. -/
def Context.pushActive (context : Context) (w : World F) : Int × World F :=
  (w.activeDevice, { w with activeDevice := context.cudaDeviceID })

/-- Modelled from the spec: `Context::popActive(oldActive)` (declared in `Device.h`): it makes
`oldActive` the current device again. -/
def Context.popActive (_context : Context) (oldActive : Int) (w : World F) : World F :=
  { w with activeDevice := oldActive }

/-- Record a call to the backend. -/
def World.call (w : World F) (c : BackendCall F) : World F :=
  { w with calls := w.calls ++ [c] }

/-- Store the object `g` at the address `id`. -/
def World.setGroup (w : World F) (id : Nat) (g : Group F) : World F :=
  { w with groups := w.groups.set id (some g) }

/-! ## InstanceGroup::destroyAccel -/

/-- The method `InstanceGroup::destroyAccel(context)`, called on the instance group at address
`self`. -/
def destroyAccel (context : Context) (self : Nat) (w : World F) : Exit × World F :=
  match w.group self with
  | none => (.fail .undefined, w)
  | some g =>
    match g.instanceGroup with
    | none => (.fail .undefined, w)
    | some _ =>
      let (oldActive, w) := context.pushActive w
      let w :=
        if g.traversable ≠ 0 then
          w.setGroup self { g with bvhMemory := g.bvhMemory.free, traversable := 0 }
        else w
      (.ok, context.popActive oldActive w)

/-! ## InstanceGroup::buildOrRefit_staticInstances and buildOrRefit_motionBlur -/

/-- The twelve assignments `transform[0*4+0] = xfm.l.vx.x; ..; transform[2*4+3] = xfm.p.z`
(lines 172-185 and 333-346). -/
def transformOf (xfm : affine3f F) : List F :=
  [xfm.l.vx.x, xfm.l.vy.x, xfm.l.vz.x, xfm.p.x,
   xfm.l.vx.y, xfm.l.vy.y, xfm.l.vz.y, xfm.p.y,
   xfm.l.vx.z, xfm.l.vy.z, xfm.l.vz.z, xfm.p.z]

/-- The twelve assignments of lines 381-394: the literals `1.f` and `0.f`. -/
def transformLiteral [Zero F] [One F] : List F :=
  [1, 0, 0, 0,
   0, 1, 0, 0,
   0, 0, 1, 0]

/-- The expression `(instanceIDs==nullptr)?childID:instanceIDs[childID]`. -/
def instanceIdOf (ig : InstanceGroup F) (childID : Nat) : Nat :=
  match ig.instanceIDs with
  | none => childID
  | some ids => ids childID

/-- The loop `for (int childID=0;childID<children.size();childID++) body`, collecting the record each
iteration fills in; the loop ends at the first iteration that fails. -/
def forChildren {α : Type} (body : Nat → Option Nat → Except Failure α) :
    Nat → List (Option Nat) → Except Failure (List α)
  | _, [] => .ok []
  | childID, child :: rest =>
    match body childID child with
    | .error e => .error e
    | .ok a =>
      match forChildren body (childID + 1) rest with
      | .error e => .error e
      | .ok as => .ok (a :: as)

/-- Body of the loop of lines 164-194: the instance record of slot `childID`. -/
def staticInstance (context : Context) (w : World F) (ig : InstanceGroup F)
    (childID : Nat) (child : Option Nat) : Except Failure (OptixInstance F) :=
  match child with
  | none => .error .assertion
  | some c =>
    if ig.transforms1.isSome then .error .assertion
    else
      match ig.transforms0 with
      | none => .error .undefined
      | some t0 =>
        match w.group c with
        | none => .error .undefined
        | some cg =>
          if cg.traversable = 0 then .error .assertion
          else .ok
            { transform := transformOf (t0 childID)
              flags := 0
              instanceId := instanceIdOf ig childID
              visibilityMask := 255
              sbtOffset := context.numRayTypes * cg.getSBTOffset
              traversableHandle := cg.traversable }

/-- Body of the loop of lines 322-348: the motion-transform record of slot `childID`. -/
def motionTransform [Zero F] [One F] (w : World F) (ig : InstanceGroup F)
    (childID : Nat) (child : Option Nat) : Except Failure (OptixMatrixMotionTransform F) :=
  match child with
  | none => .error .assertion
  | some c =>
    match w.group c with
    | none => .error .undefined
    | some cg =>
      match ig.transforms0, ig.transforms1 with
      | some t0, some t1 => .ok
          { child := cg.traversable
            motionOptions := { numKeys := 2, timeBegin := 0, timeEnd := 1, flags := 0 }
            transform := [transformOf (t0 childID), transformOf (t1 childID)] }
      | _, _ => .error .undefined

/-- The loop of lines 368-403: for each slot one pointer-to-handle conversion (whose result
`childMotionHandle` is not used afterwards) and the instance record of the slot. -/
def motionInstances [Zero F] [One F] (be : Backend F) (context : Context)
    (ig : InstanceGroup F) :
    Nat → List (Option Nat) → World F → Except Failure (List (OptixInstance F)) × World F
  | _, [], w => (.ok [], w)
  | childID, child :: rest, w =>
    match child with
    | none => (.error .assertion, w)
    | some c =>
      let byteOffset := childID * be.sizeofOptixMatrixMotionTransform
      let w := w.call (.convertPointerToTraversableHandle byteOffset)
      match be.convertPointerToTraversableHandle byteOffset with
      | none => (.error .optix_check, w)
      | some _childMotionHandle =>
        match w.group c with
        | none => (.error .undefined, w)
        | some cg =>
          if cg.traversable = 0 then (.error .assertion, w)
          else
            let oi : OptixInstance F :=
              { transform := transformLiteral
                flags := 0
                instanceId := instanceIdOf ig childID
                visibilityMask := 255
                sbtOffset := context.numRayTypes * cg.getSBTOffset
                traversableHandle := cg.traversable }
            match motionInstances be context ig (childID + 1) rest w with
            | (.error e, w) => (.error e, w)
            | (.ok ois, w) => (.ok (oi :: ois), w)

/-- Lines 196-280, which lines 405-489 repeat word for word: upload of the instance array,
sizing query, temp and output allocation, the build or update call, synchronisation, and
`popActive`.  `g` is the object at `self` as it stands, `ig` its `InstanceGroup` part. -/
def uploadAndBuild (FULL_REBUILD : Bool) (be : Backend F) (context : Context) (self : Nat)
    (oldActive : Int) (g : Group F) (ig : InstanceGroup F)
    (optixInstances : List (OptixInstance F)) (w : World F) : Exit × World F :=
  let g := { g with instanceGroup := some { ig with optixInstanceBuffer := optixInstances } }
  let w := w.setGroup self g
  let operation : OptixBuildOperation := if FULL_REBUILD then .build else .update
  let w := w.call (.accelComputeMemoryUsage operation optixInstances optixInstances.length)
  match be.accelComputeMemoryUsage operation optixInstances with
  | none => (.fail .optix_check, w)
  | some blasBufferSizes =>
    let tempSize :=
      if FULL_REBUILD then blasBufferSizes.tempSizeInBytes
      else blasBufferSizes.tempUpdateSizeInBytes
    let tempBuffer := (DeviceMemory.mk 0).alloc tempSize
    let g :=
      if FULL_REBUILD then { g with bvhMemory := g.bvhMemory.alloc blasBufferSizes.outputSizeInBytes }
      else g
    let w := w.setGroup self g
    let w := w.call (.accelBuild operation optixInstances optixInstances.length
      tempBuffer.size g.bvhMemory.size)
    match be.accelBuild operation optixInstances tempBuffer.size g.bvhMemory.size with
    | none => (.fail .optix_check, w)
    | some handle =>
      let g := { g with traversable := handle }
      let w := w.setGroup self g
      let w := w.call .deviceSynchronize
      if be.deviceSynchronize then (.ok, context.popActive oldActive w)
      else (.fail .cuda_sync_check, w)

/-- The asserts of lines 124-130 and 291-297 hold. -/
def preconditionHolds (FULL_REBUILD : Bool) (g : Group F) : Bool :=
  if FULL_REBUILD then g.traversable == 0 && g.bvhMemory.empty
  else g.traversable != 0 && !g.bvhMemory.empty

/-- The method `InstanceGroup::buildOrRefit_staticInstances<FULL_REBUILD>(context)`, called on the
instance group at address `self`. -/
def buildOrRefit_staticInstances (FULL_REBUILD : Bool) (be : Backend F) (context : Context)
    (self : Nat) (w : World F) : Exit × World F :=
  match w.group self with
  | none => (.fail .undefined, w)
  | some g =>
    match g.instanceGroup with
    | none => (.fail .undefined, w)
    | some ig =>
      if !preconditionHolds FULL_REBUILD g then (.fail .assertion, w)
      else
        let (oldActive, w) := context.pushActive w
        let w := w.call .deviceContextGetProperty
        let maxInstsPerIAS := be.maxInstancesPerIAS.getD 0
        if ig.children.length > maxInstsPerIAS then (.fail .runtime_error, w)
        else
          match forChildren (staticInstance context w ig) 0 ig.children with
          | .error e => (.fail e, w)
          | .ok optixInstances =>
            uploadAndBuild FULL_REBUILD be context self oldActive g ig optixInstances w

/-- The method `InstanceGroup::buildOrRefit_motionBlur<FULL_REBUILD>(context)`, called on the instance
group at address `self`. -/
def buildOrRefit_motionBlur [Zero F] [One F] (FULL_REBUILD : Bool) (be : Backend F)
    (context : Context) (self : Nat) (w : World F) : Exit × World F :=
  match w.group self with
  | none => (.fail .undefined, w)
  | some g =>
    match g.instanceGroup with
    | none => (.fail .undefined, w)
    | some ig =>
      if !preconditionHolds FULL_REBUILD g then (.fail .assertion, w)
      else
        let (oldActive, w) := context.pushActive w
        let w := w.call .deviceContextGetProperty
        let maxInstsPerIAS := be.maxInstancesPerIAS.getD 0
        if ig.children.length > maxInstsPerIAS then (.fail .runtime_error, w)
        else if ig.transforms1.isNone then (.fail .assertion, w)
        else
          match forChildren (motionTransform w ig) 0 ig.children with
          | .error e => (.fail e, w)
          | .ok motionTransforms =>
            let ig := { ig with motionTransformsBuffer := motionTransforms }
            let g := { g with instanceGroup := some ig }
            let w := w.setGroup self g
            match motionInstances be context ig 0 ig.children w with
            | (.error e, w) => (.fail e, w)
            | (.ok optixInstances, w) =>
              uploadAndBuild FULL_REBUILD be context self oldActive g ig optixInstances w

/-- The method `InstanceGroup::buildAccel(context)`: the static path when `transforms[1]` is
null, the motion-blur path otherwise. -/
def buildAccel [Zero F] [One F] (be : Backend F) (context : Context) (self : Nat)
    (w : World F) : Exit × World F :=
  match w.group self with
  | none => (.fail .undefined, w)
  | some g =>
    match g.instanceGroup with
    | none => (.fail .undefined, w)
    | some ig =>
      if ig.transforms1.isNone then buildOrRefit_staticInstances true be context self w
      else buildOrRefit_motionBlur true be context self w

/-- The method `InstanceGroup::refitAccel(context)`: the static path when `transforms[1]` is
null, the motion-blur path otherwise. -/
def refitAccel [Zero F] [One F] (be : Backend F) (context : Context) (self : Nat)
    (w : World F) : Exit × World F :=
  match w.group self with
  | none => (.fail .undefined, w)
  | some g =>
    match g.instanceGroup with
    | none => (.fail .undefined, w)
    | some ig =>
      if ig.transforms1.isNone then buildOrRefit_staticInstances false be context self w
      else buildOrRefit_motionBlur false be context self w

/-- Reference count stored in a table entry. -/
def entryRefCount (og : Option (Group F)) : Int :=
  match og with
  | some g => g.numTimesReferenced
  | none => 0

/-! ## Concrete states used to run the code -/

/-- A geometry group (not an instance group) that has not been built. -/
def geomGroup0 : Group Int :=
  { numTimesReferenced := 0, traversable := 0, bvhMemory := ⟨0⟩, getSBTOffset := 0,
    instanceGroup := none }

/-- A freshly created instance group with one slot, which is still unset. -/
def instanceGroup1 : Group Int :=
  { numTimesReferenced := 0, traversable := 0, bvhMemory := ⟨0⟩, getSBTOffset := 0,
    instanceGroup := some
      { children := [none], transforms0 := none, transforms1 := none, instanceIDs := none,
        optixInstanceBuffer := [], motionTransformsBuffer := [] } }

/-- Group 0 is an instance group with one unset slot, group 1 a geometry group. -/
def worldFresh : World Int :=
  { groups := [some instanceGroup1, some geomGroup0], activeDevice := 0, calls := [] }

/-- The identity transform. -/
def identityXfm : affine3f Int :=
  { l := { vx := ⟨1, 0, 0⟩, vy := ⟨0, 1, 0⟩, vz := ⟨0, 0, 1⟩ }, p := ⟨0, 0, 0⟩ }

/-- A transform with distinct entries: slot `i` is translated by `(10 i, 20, 30)`. -/
def slotXfm (i : Nat) : affine3f Int :=
  { l := { vx := ⟨1, 2, 3⟩, vy := ⟨4, 5, 6⟩, vz := ⟨7, 8, 9⟩ }, p := ⟨10 * i, 20, 30⟩ }

/-- A built geometry group: handle 7, 100 bytes of accel memory, SBT base offset 3. -/
def geomGroupBuilt : Group Int :=
  { numTimesReferenced := 2, traversable := 7, bvhMemory := ⟨100⟩, getSBTOffset := 3,
    instanceGroup := none }

/-- An instance group that has not been built: two slots, both holding group 1, time-step-0
transforms only, no explicit instance IDs. -/
def instanceGroupStatic : Group Int :=
  { numTimesReferenced := 0, traversable := 0, bvhMemory := ⟨0⟩, getSBTOffset := 0,
    instanceGroup := some
      { children := [some 1, some 1], transforms0 := some slotXfm, transforms1 := none,
        instanceIDs := none, optixInstanceBuffer := [], motionTransformsBuffer := [] } }

/-- The same group with time-step-1 transforms and explicit instance IDs `100 + i`. -/
def instanceGroupMotion : Group Int :=
  { numTimesReferenced := 0, traversable := 0, bvhMemory := ⟨0⟩, getSBTOffset := 0,
    instanceGroup := some
      { children := [some 1, some 1], transforms0 := some slotXfm,
        transforms1 := some (fun _ => identityXfm),
        instanceIDs := some (fun i => 100 + i), optixInstanceBuffer := [],
        motionTransformsBuffer := [] } }

/-- Group 0 is `instanceGroupStatic`, group 1 the built geometry group; device 0 is current. -/
def worldStatic : World Int :=
  { groups := [some instanceGroupStatic, some geomGroupBuilt], activeDevice := 0, calls := [] }

/-- Group 0 is `instanceGroupMotion`, group 1 the built geometry group; device 0 is current. -/
def worldMotion : World Int :=
  { groups := [some instanceGroupMotion, some geomGroupBuilt], activeDevice := 0, calls := [] }

/-- A built instance group: as `instanceGroupStatic`, with handle 42 and 300 bytes of accel
memory. -/
def instanceGroupBuilt : Group Int :=
  { numTimesReferenced := 0, traversable := 42, bvhMemory := ⟨300⟩, getSBTOffset := 0,
    instanceGroup := some
      { children := [some 1, some 1], transforms0 := some slotXfm, transforms1 := none,
        instanceIDs := none, optixInstanceBuffer := [], motionTransformsBuffer := [] } }

/-- Group 0 is `instanceGroupBuilt`, group 1 the built geometry group; device 0 is current. -/
def worldBuilt : World Int :=
  { groups := [some instanceGroupBuilt, some geomGroupBuilt], activeDevice := 0, calls := [] }

/-- A backend on which every call succeeds: limit 16, output size 64 bytes per instance plus
128, handle 42. -/
def backendOk : Backend Int :=
  { maxInstancesPerIAS := some 16
    sizeofOptixMatrixMotionTransform := 128
    convertPointerToTraversableHandle := fun byteOffset => some (1000 + byteOffset)
    accelComputeMemoryUsage := fun _ instances => some
      { outputSizeInBytes := 64 * instances.length + 128, tempSizeInBytes := 32,
        tempUpdateSizeInBytes := 16 }
    accelBuild := fun _ _ _ _ => some 42
    deviceSynchronize := true }

/-- A backend whose build/update call fails; everything else as in `backendOk`. -/
def backendBuildFails : Backend Int :=
  { backendOk with accelBuild := fun _ _ _ _ => none }

/-- A backend that reports an instance limit of 1; everything else as in `backendOk`. -/
def backendLimit1 : Backend Int :=
  { backendOk with maxInstancesPerIAS := some 1 }

/-- A context bound to CUDA device 1, with 2 ray types. -/
def context1 : Context := { cudaDeviceID := 1, numRayTypes := 2 }

/-- Traversable handle of the group at `id` (0 when there is none). -/
def World.traversable (w : World F) (id : Nat) : Nat :=
  match w.group id with
  | some g => g.traversable
  | none => 0

/-- Accel memory block of the group at `id`. -/
def World.bvhMemory (w : World F) (id : Nat) : DeviceMemory :=
  match w.group id with
  | some g => g.bvhMemory
  | none => ⟨0⟩

/-- Contents of the instance buffer of the instance group at `id`. -/
def World.optixInstanceBuffer (w : World F) (id : Nat) : List (OptixInstance F) :=
  match w.group id with
  | some g => match g.instanceGroup with
    | some ig => ig.optixInstanceBuffer
    | none => []
  | none => []

/-- Contents of the motion-transform buffer of the instance group at `id`. -/
def World.motionTransformsBuffer (w : World F) (id : Nat) :
    List (OptixMatrixMotionTransform F) :=
  match w.group id with
  | some g => match g.instanceGroup with
    | some ig => ig.motionTransformsBuffer
    | none => []
  | none => []

/-- Component `r` (0 = x, 1 = y, 2 = z) of a vector. -/
def vec3f.component (v : vec3f F) (r : Fin 3) : F :=
  match r.val with
  | 0 => v.x
  | 1 => v.y
  | _ => v.z

/-- Following the spec's words (a 3x4 world transform derived from the affine transform):
entry in row `r`, column `c` of the 3x4 matrix of `xfm`, whose columns 0, 1, 2 are the columns
`vx`, `vy`, `vz` of the linear part and whose column 3 is the translation `p`. -/
def affine3f.entry (xfm : affine3f F) (r : Fin 3) (c : Fin 4) : F :=
  match c.val with
  | 0 => xfm.l.vx.component r
  | 1 => xfm.l.vy.component r
  | 2 => xfm.l.vz.component r
  | _ => xfm.p.component r

/-- Following the spec's words (row-major): the entries of a 3x4 matrix listed row after row. -/
def rowMajor3x4 (m : Fin 3 → Fin 4 → F) : List F :=
  ((List.finRange 3).map (fun r => (List.finRange 4).map (fun c => m r c))).flatten

/-- Following the spec's words (the identity affine transform): linear part with the unit
vectors as columns, translation zero. -/
def affine3f.identity [Zero F] [One F] : affine3f F :=
  { l := { vx := ⟨1, 0, 0⟩, vy := ⟨0, 1, 0⟩, vz := ⟨0, 0, 1⟩ }, p := ⟨0, 0, 0⟩ }

/-- The `InstanceGroup` part of the group at `id`, when it is an instance group. -/
def World.instanceGroup (w : World F) (id : Nat) : Option (InstanceGroup F) :=
  match w.group id with
  | some g => g.instanceGroup
  | none => none

/-- An instance group that has not been built, with two slots: slot 0 holds group 1, slot 1 is
unset. -/
def instanceGroupUnset : Group Int :=
  { numTimesReferenced := 0, traversable := 0, bvhMemory := ⟨0⟩, getSBTOffset := 0,
    instanceGroup := some
      { children := [some 1, none], transforms0 := some slotXfm, transforms1 := none,
        instanceIDs := none, optixInstanceBuffer := [], motionTransformsBuffer := [] } }

/-- Group 0 is `instanceGroupUnset`, group 1 the built geometry group; device 0 is current. -/
def worldUnset : World Int :=
  { groups := [some instanceGroupUnset, some geomGroupBuilt], activeDevice := 0, calls := [] }

/-- An instance group that has not been built, with both transform arrays and one slot, which
holds group 1. -/
def instanceGroupMotionOne : Group Int :=
  { numTimesReferenced := 0, traversable := 0, bvhMemory := ⟨0⟩, getSBTOffset := 0,
    instanceGroup := some
      { children := [some 1], transforms0 := some slotXfm,
        transforms1 := some (fun _ => identityXfm), instanceIDs := none,
        optixInstanceBuffer := [], motionTransformsBuffer := [] } }

/-- Group 0 is `instanceGroupMotionOne`, group 1 a geometry group that has not been built. -/
def worldMotionUnbuilt : World Int :=
  { groups := [some instanceGroupMotionOne, some geomGroup0], activeDevice := 0, calls := [] }

/-- A backend whose pointer-to-handle conversion fails; everything else as in `backendOk`. -/
def backendConvertFails : Backend Int :=
  { backendOk with convertPointerToTraversableHandle := fun _ => none }

/-! ## Device::instanceGroupCreate -/

/-- The conversion in `int childGroupID = childGroupIDs[childID]`: a `uint32_t` value read as a
32-bit `int`. -/
def uint32ToInt (v : Nat) : Int :=
  if v % 2 ^ 32 < 2 ^ 31 then ((v % 2 ^ 32 : Nat) : Int)
  else ((v % 2 ^ 32 : Nat) : Int) - 2 ^ 32

/-- Modelled from the spec: what the constructor `InstanceGroup(childCount)` (declared in
`Device.h`, its body is outside `InstanceGroup.cpp`) returns.  The spec's `create(childCount)`
allocates a fixed-size child array with all slots initially unset; a group nobody points at yet
has reference count 0.  The other fields are left open. -/
def IsNewInstanceGroup (childCount : Nat) (g : Group F) : Prop :=
  g.numTimesReferenced = 0 ∧
    ∃ ig, g.instanceGroup = some ig ∧ ig.children = List.replicate childCount none

/-- The body of `owl::parallel_for(childCount, [&](size_t childID){ if (childGroupIDs) .. })`
(lines 79-92) for a non-null `childGroupIDs`, run for the slots `childID`, `childID + 1`, ..
one after the other (`remaining` of them); `group` is the address of the new group. -/
def instanceGroupCreate_children (group : Nat) (childGroupIDs : Nat → Nat) :
    Nat → Nat → World F → Exit × World F
  | _, 0, w => (.ok, w)
  | childID, remaining + 1, w =>
    let childGroupID := uint32ToInt (childGroupIDs childID)
    if childGroupID < 0 then (.fail .assertion, w)
    else if w.groups.length ≤ childGroupID.toNat then (.fail .assertion, w)
    else
      match w.group childGroupID.toNat with
      | none => (.fail .assertion, w)
      | some _ =>
        let w := w.modifyGroup childGroupID.toNat Group.incRef
        let w := w.modifyInstanceGroup group
          (InstanceGroup.setSlot childID childGroupID.toNat)
        instanceGroupCreate_children group childGroupIDs (childID + 1) remaining w

/-- The function `Device::instanceGroupCreate(groupID, childCount, childGroupIDs)`; the
constructor `InstanceGroup(childCount)` is the parameter `newInstanceGroup`, a null
`childGroupIDs` is `none`.  The iterations of `parallel_for` are run in slot order. -/
def instanceGroupCreate (newInstanceGroup : Nat → Group F) (groupID : Int) (childCount : Nat)
    (childGroupIDs : Option (Nat → Nat)) (w : World F) : Exit × World F :=
  if groupID < 0 then (.fail .assertion, w)
  else if w.groups.length ≤ groupID.toNat then (.fail .assertion, w)
  else if (w.group groupID.toNat).isSome then (.fail .assertion, w)
  else
    let w := w.setGroup groupID.toNat (newInstanceGroup childCount)
    match childGroupIDs with
    | none => (.ok, w)
    | some ids => instanceGroupCreate_children groupID.toNat ids 0 childCount w

/-- Number of slots of the table entry `og` that point at group `id`. -/
def entrySlotCount (id : Nat) (og : Option (Group F)) : Nat :=
  match og with
  | some g =>
    match g.instanceGroup with
    | some ig => ig.children.count (some id)
    | none => 0
  | none => 0

/-- Number of instance-group slots, over the whole table, that point at group `id`. -/
def World.slotCount (w : World F) (id : Nat) : Nat :=
  (w.groups.map (entrySlotCount id)).sum

/-- Every child pointer stored in a slot refers to a live group. -/
def World.childrenLive (w : World F) : Prop :=
  ∀ j g ig, w.group j = some g → g.instanceGroup = some ig →
    ∀ o, some o ∈ ig.children → (w.group o).isSome = true

/-- The reference-count invariant: every group's reference count is the number of slots that
point at it, and every slot points at a live group (or is unset). -/
def World.RefCountInvariant (w : World F) : Prop :=
  (∀ id, w.refCount id = (w.slotCount id : Int)) ∧ w.childrenLive

/-! ## Lemmas on the group table -/

theorem World.group_modifyGroup (w : World F) (i j : Nat) (f : Group F → Group F) :
    (w.modifyGroup i f).group j = if i = j then (w.group i).map f else w.group j := by
  unfold World.modifyGroup
  cases h : w.group i with
  | none =>
    by_cases hij : i = j
    · subst hij
      simp [h]
    · simp [hij]
  | some g =>
    have hlt : i < w.groups.length := by
      unfold World.group at h
      by_contra hc
      rw [List.getElem?_eq_none (by omega)] at h
      simp at h
    by_cases hij : i = j
    · subst hij
      simp [World.group, List.getElem?_set, hlt]
    · simp [World.group, List.getElem?_set, hij]

theorem World.refCountSum_eq (w : World F) :
    w.refCountSum = (w.groups.map entryRefCount).sum := by
  unfold World.refCountSum
  congr 1

theorem sum_map_set (l : List (Option (Group F))) (i : Nat) (g g2 : Group F)
    (h : l[i]? = some (some g)) :
    ((l.set i (some g2)).map entryRefCount).sum
      = (l.map entryRefCount).sum - g.numTimesReferenced + g2.numTimesReferenced := by
  induction l generalizing i with
  | nil => simp at h
  | cons a l ih =>
    cases i with
    | zero =>
      simp at h
      subst h
      simp [entryRefCount]
      ring
    | succ i =>
      simp at h
      simp only [List.set_cons_succ, List.map_cons, List.sum_cons]
      rw [ih i h]
      ring

theorem World.group_lt (w : World F) (i : Nat) (g : Group F) (h : w.group i = some g) :
    i < w.groups.length := by
  unfold World.group at h
  by_contra hc
  rw [List.getElem?_eq_none (by omega)] at h
  simp at h

theorem World.group_getElem (w : World F) (i : Nat) (g : Group F) (h : w.group i = some g) :
    w.groups[i]? = some (some g) := by
  unfold World.group at h
  cases h2 : w.groups[i]? with
  | none => simp [h2] at h
  | some og =>
    simp [h2] at h
    simp [h]

theorem World.refCountSum_modifyGroup (w : World F) (i : Nat) (f : Group F → Group F)
    (g : Group F) (h : w.group i = some g) :
    (w.modifyGroup i f).refCountSum
      = w.refCountSum - g.numTimesReferenced + (f g).numTimesReferenced := by
  rw [World.refCountSum_eq, World.refCountSum_eq]
  unfold World.modifyGroup
  rw [h]
  exact sum_map_set w.groups i g (f g) (w.group_getElem i g h)

theorem World.refCount_modifyGroup (w : World F) (i j : Nat) (f : Group F → Group F) :
    (w.modifyGroup i f).refCount j
      = if i = j then entryRefCount ((w.group i).map f) else w.refCount j := by
  unfold World.refCount
  rw [World.group_modifyGroup]
  by_cases hij : i = j
  · simp only [hij, if_true]
    cases w.group j <;> simp [entryRefCount]
  · simp [hij]

theorem World.length_modifyGroup (w : World F) (i : Nat) (f : Group F → Group F) :
    (w.modifyGroup i f).groups.length = w.groups.length := by
  unfold World.modifyGroup
  cases w.group i <;> simp

theorem checkGetGroup_ok (w : World F) (groupID : Int) (n : Nat) (g : Group F)
    (h : checkGetGroup w groupID = .ok (n, g)) :
    n = groupID.toNat ∧ 0 ≤ groupID ∧ w.group n = some g := by
  unfold checkGetGroup at h
  split at h
  · simp at h
  · split at h
    · simp at h
    · split at h
      · simp at h
      · rename_i g2 hg
        simp only [Except.ok.injEq, Prod.mk.injEq] at h
        obtain ⟨h1, h2⟩ := h
        subst h1 h2
        exact ⟨rfl, by omega, hg⟩

theorem checkGetInstanceGroup_ok (w : World F) (groupID : Int) (n : Nat) (d : InstanceGroup F)
    (h : checkGetInstanceGroup w groupID = .ok (n, d)) :
    n = groupID.toNat ∧ 0 ≤ groupID ∧
      ∃ g, w.group n = some g ∧ g.instanceGroup = some d := by
  unfold checkGetInstanceGroup at h
  split at h
  · simp at h
  · rename_i id g hg
    split at h
    · simp at h
    · rename_i d2 hd
      simp only [Except.ok.injEq, Prod.mk.injEq] at h
      obtain ⟨h1, h2⟩ := h
      subst h1 h2
      obtain ⟨a, b, c⟩ := checkGetGroup_ok w groupID id g hg
      exact ⟨a, b, g, c, hd⟩

theorem World.refCount_modifyInstanceGroup (w : World F) (i j : Nat)
    (f : InstanceGroup F → InstanceGroup F) :
    (w.modifyInstanceGroup i f).refCount j = w.refCount j := by
  unfold World.modifyInstanceGroup
  rw [World.refCount_modifyGroup]
  by_cases hij : i = j
  · subst hij
    simp only [if_true]
    unfold World.refCount
    cases w.group i <;> simp [entryRefCount]
  · simp [hij]

theorem World.refCountSum_modifyInstanceGroup (w : World F) (i : Nat)
    (f : InstanceGroup F → InstanceGroup F) :
    (w.modifyInstanceGroup i f).refCountSum = w.refCountSum := by
  unfold World.modifyInstanceGroup
  cases h : w.group i with
  | none => simp [World.modifyGroup, h]
  | some g =>
    rw [World.refCountSum_modifyGroup w i _ g h]
    simp

theorem World.isSome_group_modifyGroup (w : World F) (i j : Nat) (f : Group F → Group F) :
    ((w.modifyGroup i f).group j).isSome = (w.group j).isSome := by
  rw [World.group_modifyGroup]
  by_cases hij : i = j
  · subst hij
    cases w.group i <;> simp
  · simp [hij]

theorem World.children_modifyGroup (w : World F) (i j : Nat) (f : Group F → Group F)
    (hf : ∀ g, (f g).instanceGroup = g.instanceGroup) :
    (w.modifyGroup i f).children j = w.children j := by
  unfold World.children
  rw [World.group_modifyGroup]
  by_cases hij : i = j
  · subst hij
    cases w.group i <;> simp [hf]
  · simp [hij]

theorem World.children_modifyInstanceGroup (w : World F) (i : Nat)
    (f : InstanceGroup F → InstanceGroup F) :
    (w.modifyInstanceGroup i f).children i = 
      match w.group i with
      | some g => match g.instanceGroup with
        | some d => (f d).children
        | none => []
      | none => [] := by
  unfold World.modifyInstanceGroup World.children
  rw [World.group_modifyGroup]
  cases w.group i with
  | none => simp
  | some g => cases hg : g.instanceGroup <;> simp [hg]

theorem World.refCount_bump (w : World F) (c id : Nat) (k : Int) (f : Group F → Group F)
    (hf : ∀ g, (f g).numTimesReferenced = g.numTimesReferenced + k)
    (h : (w.group c).isSome = true) :
    (w.modifyGroup c f).refCount id = w.refCount id + (if id = c then k else 0) := by
  rw [World.refCount_modifyGroup]
  obtain ⟨g, hg⟩ := Option.isSome_iff_exists.mp h
  by_cases hij : c = id
  · subst hij
    simp [hg, entryRefCount, World.refCount, hf]
  · have : ¬ id = c := fun e => hij e.symm
    simp [hij, this]

theorem World.refCountSum_bump (w : World F) (c : Nat) (k : Int) (f : Group F → Group F)
    (hf : ∀ g, (f g).numTimesReferenced = g.numTimesReferenced + k)
    (h : (w.group c).isSome = true) :
    (w.modifyGroup c f).refCountSum = w.refCountSum + k := by
  obtain ⟨g, hg⟩ := Option.isSome_iff_exists.mp h
  rw [World.refCountSum_modifyGroup w c f g hg, hf]
  ring

theorem World.getChild_eq (w : World F) (ig : Nat) (g : Group F) (d : InstanceGroup F)
    (hg : w.group ig = some g) (hd : g.instanceGroup = some d) (slot : Nat) :
    w.getChild ig slot = (d.children[slot]?).join := by
  simp [World.getChild, World.children, hg, hd]

theorem instanceGroupSetChild_eq (w : World F) (groupID childNo childGroupID : Int)
    (ig : Nat) (d : InstanceGroup F) (c : Nat) (cg : Group F)
    (hig : checkGetInstanceGroup w groupID = .ok (ig, d))
    (hc : checkGetGroup w childGroupID = .ok (c, cg))
    (hlo : 0 ≤ childNo) (hhi : childNo.toNat < d.children.length) :
    instanceGroupSetChild groupID childNo childGroupID w =
      (.ok,
        ((match (d.children[childNo.toNat]?).join with
          | some old => w.modifyGroup old Group.decRef
          | none => w).modifyInstanceGroup ig
            (InstanceGroup.setSlot childNo.toNat c)).modifyGroup c Group.incRef) := by
  unfold instanceGroupSetChild
  rw [hig]
  simp only [hc]
  have : ¬ (childNo < 0 ∨ d.children.length ≤ childNo.toNat) := by omega
  simp only [this, if_false]

theorem World.group_inst_modifyGroup (w : World F) (i j : Nat) (f : Group F → Group F)
    (hf : ∀ g, (f g).instanceGroup = g.instanceGroup) (g : Group F) (d : InstanceGroup F)
    (hg : w.group j = some g) (hd : g.instanceGroup = some d) :
    ∃ g2, (w.modifyGroup i f).group j = some g2 ∧ g2.instanceGroup = some d := by
  rw [World.group_modifyGroup]
  by_cases hij : i = j
  · subst hij
    exact ⟨f g, by simp [hg], by rw [hf, hd]⟩
  · exact ⟨g, by simp [hij, hg], hd⟩

/-- C1 (amended): for a valid instance group, a valid child group and an in-range slot whose
occupant (if any) is a live group, `instanceGroupSetChild` returns normally; reading the slot
afterwards gives the child; each group's reference count is its old one, minus 1 if it was the
slot's occupant, plus 1 if it is the new child; and the sum of all reference counts is
unchanged when the slot was occupied and grows by 1 when the slot was unset. -/
theorem instanceGroupSetChild_refCounts (w : World F) (groupID childNo childGroupID : Int)
    (ig : Nat) (d : InstanceGroup F) (c : Nat) (cg : Group F)
    (hig : checkGetInstanceGroup w groupID = .ok (ig, d))
    (hc : checkGetGroup w childGroupID = .ok (c, cg))
    (hlo : 0 ≤ childNo) (hhi : childNo.toNat < d.children.length)
    (hold : ∀ old, w.getChild ig childNo.toNat = some old → (w.group old).isSome = true) :
    (instanceGroupSetChild groupID childNo childGroupID w).1 = .ok ∧
    (instanceGroupSetChild groupID childNo childGroupID w).2.getChild ig childNo.toNat
        = some c ∧
    (∀ id, (instanceGroupSetChild groupID childNo childGroupID w).2.refCount id
        = w.refCount id - (if w.getChild ig childNo.toNat = some id then 1 else 0)
            + (if id = c then 1 else 0)) ∧
    (instanceGroupSetChild groupID childNo childGroupID w).2.refCountSum
        = w.refCountSum + (if w.getChild ig childNo.toNat = none then 1 else 0) := by
  rw [instanceGroupSetChild_eq w groupID childNo childGroupID ig d c cg hig hc hlo hhi]
  obtain ⟨_, _, g, hg, hd⟩ := checkGetInstanceGroup_ok w groupID ig d hig
  obtain ⟨_, _, hcg⟩ := checkGetGroup_ok w childGroupID c cg hc
  have hchild := w.getChild_eq ig g d hg hd childNo.toNat
  rw [hchild] at hold ⊢
  have key : ∀ w1 : World F,
      (∃ g1, w1.group ig = some g1 ∧ g1.instanceGroup = some d) →
      (w1.group c).isSome = true →
      (((w1.modifyInstanceGroup ig (InstanceGroup.setSlot childNo.toNat c)).modifyGroup c
          Group.incRef).getChild ig childNo.toNat = some c) ∧
      (∀ id, ((w1.modifyInstanceGroup ig (InstanceGroup.setSlot childNo.toNat c)).modifyGroup c
          Group.incRef).refCount id = w1.refCount id + (if id = c then 1 else 0)) ∧
      ((w1.modifyInstanceGroup ig (InstanceGroup.setSlot childNo.toNat c)).modifyGroup c
          Group.incRef).refCountSum = w1.refCountSum + 1 := by
    intro w1 ⟨g1, hg1, hd1⟩ hc1
    have hc2 : ((w1.modifyInstanceGroup ig (InstanceGroup.setSlot childNo.toNat c)).group c).isSome
          = true := by
      unfold World.modifyInstanceGroup
      rw [World.isSome_group_modifyGroup]
      exact hc1
    refine ⟨?_, ?_, ?_⟩
    · unfold World.getChild
      rw [World.children_modifyGroup _ _ _ Group.incRef (fun _ => rfl),
        World.children_modifyInstanceGroup, hg1]
      simp [hd1, hhi, InstanceGroup.setSlot]
    · intro id
      rw [World.refCount_bump _ c id 1 Group.incRef (fun _ => rfl) hc2,
        World.refCount_modifyInstanceGroup]
    · rw [World.refCountSum_bump _ c 1 Group.incRef (fun _ => rfl) hc2,
        World.refCountSum_modifyInstanceGroup]
  refine ⟨rfl, ?_⟩
  cases ho : (d.children[childNo.toNat]?).join with
  | none =>
    obtain ⟨k1, k2, k3⟩ := key w ⟨g, hg, hd⟩ (by simp [hcg])
    refine ⟨k1, ?_, ?_⟩
    · intro id
      rw [k2 id]
      simp
    · rw [k3]
      simp
  | some old =>
    have hlive := hold old ho
    have hdec : ∀ g : Group F, (Group.decRef g).numTimesReferenced = g.numTimesReferenced + (-1) :=
      fun g => by simp [Group.decRef, sub_eq_add_neg]
    obtain ⟨k1, k2, k3⟩ := key (w.modifyGroup old Group.decRef)
      (World.group_inst_modifyGroup w old ig Group.decRef (fun _ => rfl) g d hg hd)
      (by rw [World.isSome_group_modifyGroup]; simp [hcg])
    refine ⟨k1, ?_, ?_⟩
    · intro id
      rw [k2 id, World.refCount_bump w old id (-1) Group.decRef hdec hlive]
      by_cases hid : id = old
      · subst hid
        simp
        ring
      · have : ¬ old = id := fun e => hid e.symm
        simp [hid, this]
    · rw [k3, World.refCountSum_bump w old (-1) Group.decRef hdec hlive]
      simp

/-- C1 (witness): the amended statement at the fresh table, slot 0 of group 0 set to group 1. -/
theorem instanceGroupSetChild_refCounts_witness :
    (instanceGroupSetChild 0 0 1 worldFresh).1 = .ok ∧
    (instanceGroupSetChild 0 0 1 worldFresh).2.getChild 0 0 = some 1 ∧
    (instanceGroupSetChild 0 0 1 worldFresh).2.refCountSum
        = worldFresh.refCountSum + (if worldFresh.getChild 0 0 = none then 1 else 0) :=
  have h := instanceGroupSetChild_refCounts worldFresh 0 0 1 0
    { children := [none], transforms0 := none, transforms1 := none, instanceIDs := none,
      optixInstanceBuffer := [], motionTransformsBuffer := [] } 1 geomGroup0
    rfl rfl (by decide) (by decide)
    (by
      intro old ho
      have hn : worldFresh.getChild 0 (Int.toNat 0) = none := by decide
      rw [hn] at ho
      cases ho)
  ⟨h.1, h.2.1, h.2.2.2⟩

/-- C1 (counterexample): on the fresh table slot 0 of group 0 is unset; setting it to group 1
returns normally and the sum of all reference counts goes from 0 to 1, so it is not unchanged. -/
theorem instanceGroupSetChild_unset_slot_changes_sum :
    (instanceGroupSetChild 0 0 1 worldFresh).1 = .ok ∧
    worldFresh.getChild 0 0 = none ∧
    worldFresh.refCountSum = 0 ∧
    (instanceGroupSetChild 0 0 1 worldFresh).2.refCountSum = 1 := by
  decide

/-! ## Lemmas on the world operations -/

@[simp] theorem World.groups_setGroup (w : World F) (i : Nat) (g : Group F) :
    (w.setGroup i g).groups = w.groups.set i (some g) := rfl

@[simp] theorem World.activeDevice_setGroup (w : World F) (i : Nat) (g : Group F) :
    (w.setGroup i g).activeDevice = w.activeDevice := rfl

@[simp] theorem World.calls_setGroup (w : World F) (i : Nat) (g : Group F) :
    (w.setGroup i g).calls = w.calls := rfl

@[simp] theorem World.groups_call (w : World F) (c : BackendCall F) :
    (w.call c).groups = w.groups := rfl

@[simp] theorem World.activeDevice_call (w : World F) (c : BackendCall F) :
    (w.call c).activeDevice = w.activeDevice := rfl

@[simp] theorem World.calls_call (w : World F) (c : BackendCall F) :
    (w.call c).calls = w.calls ++ [c] := rfl

@[simp] theorem World.group_call (w : World F) (c : BackendCall F) (j : Nat) :
    (w.call c).group j = w.group j := rfl

theorem World.group_of_groups (w v : World F) (h : v.groups = w.groups) (j : Nat) :
    v.group j = w.group j := by
  unfold World.group
  rw [h]

theorem World.group_set_self (w v : World F) (i : Nat) (g : Group F)
    (hi : i < w.groups.length) (h : v.groups = w.groups.set i (some g)) :
    v.group i = some g := by
  unfold World.group
  rw [h]
  simp [hi]

theorem World.group_set_ne (w v : World F) (i j : Nat) (g : Group F) (hij : i ≠ j)
    (h : v.groups = w.groups.set i (some g)) :
    v.group j = w.group j := by
  unfold World.group
  rw [h]
  simp [List.getElem?_set, hij]

/-! ## Lemmas on the loops -/

theorem forChildren_eq_ok {α : Type} (body : Nat → Option Nat → Except Failure α)
    (k : Nat) (l : List (Option Nat)) (as : List α) (h : forChildren body k l = .ok as) :
    as.length = l.length ∧
      ∀ i (hi : i < l.length), ∃ a, body (k + i) l[i] = .ok a ∧ as[i]? = some a := by
  induction l generalizing k as with
  | nil =>
    simp [forChildren] at h
    subst h
    simp
  | cons child rest ih =>
    unfold forChildren at h
    split at h
    · simp at h
    · rename_i a ha
      split at h
      · simp at h
      · rename_i as2 has
        simp only [Except.ok.injEq] at h
        subst h
        obtain ⟨hlen, hpt⟩ := ih (k + 1) as2 has
        refine ⟨by simp [hlen], ?_⟩
        intro i hi
        cases i with
        | zero => exact ⟨a, by simpa using ha, by simp⟩
        | succ i =>
          obtain ⟨b, hb1, hb2⟩ := hpt i (by simpa using hi)
          refine ⟨b, ?_, by simpa using hb2⟩
          have : k + (i + 1) = k + 1 + i := by omega
          rw [this]
          simpa using hb1

theorem forChildren_total {α : Type} (body : Nat → Option Nat → Except Failure α)
    (k : Nat) (l : List (Option Nat))
    (h : ∀ i (hi : i < l.length), ∃ a, body (k + i) l[i] = .ok a) :
    ∃ as, forChildren body k l = .ok as := by
  induction l generalizing k with
  | nil => exact ⟨[], rfl⟩
  | cons child rest ih =>
    obtain ⟨a, ha⟩ := h 0 (by simp)
    have hrest : ∀ i (hi : i < rest.length), ∃ a, body (k + 1 + i) rest[i] = .ok a := by
      intro i hi
      obtain ⟨b, hb⟩ := h (i + 1) (by simpa using hi)
      have : k + (i + 1) = k + 1 + i := by omega
      rw [this] at hb
      exact ⟨b, by simpa using hb⟩
    obtain ⟨as, has⟩ := ih (k + 1) hrest
    refine ⟨a :: as, ?_⟩
    unfold forChildren
    simp at ha
    simp [ha, has]

theorem motionInstances_frame [Zero F] [One F] (be : Backend F) (context : Context)
    (ig : InstanceGroup F) (k : Nat) (l : List (Option Nat)) (w : World F) :
    (motionInstances be context ig k l w).2.groups = w.groups ∧
      (motionInstances be context ig k l w).2.activeDevice = w.activeDevice := by
  induction l generalizing k w with
  | nil => simp [motionInstances]
  | cons child rest ih =>
    unfold motionInstances
    split
    · simp
    · simp only
      split
      · simp
      · split
        · simp
        · split
          · simp
          · have := ih (k + 1)
              (w.call (.convertPointerToTraversableHandle (k * be.sizeofOptixMatrixMotionTransform)))
            split
            · rename_i e w2 heq
              rw [heq] at this
              simpa using this
            · rename_i ois w2 heq
              rw [heq] at this
              simpa using this

theorem motionInstances_eq_ok [Zero F] [One F] (be : Backend F) (context : Context)
    (ig : InstanceGroup F) (k : Nat) (l : List (Option Nat)) (w w2 : World F)
    (ois : List (OptixInstance F))
    (h : motionInstances be context ig k l w = (.ok ois, w2)) :
    ois.length = l.length ∧
      ∀ i (hi : i < l.length), ∃ c cg, l[i] = some c ∧ w.group c = some cg ∧
        cg.traversable ≠ 0 ∧
        ois[i]? = some
          { transform := transformLiteral
            flags := 0
            instanceId := instanceIdOf ig (k + i)
            visibilityMask := 255
            sbtOffset := context.numRayTypes * cg.getSBTOffset
            traversableHandle := cg.traversable } := by
  induction l generalizing k w w2 ois with
  | nil =>
    simp [motionInstances] at h
    obtain ⟨h1, _⟩ := h
    subst h1
    simp
  | cons child rest ih =>
    unfold motionInstances at h
    split at h
    · simp at h
    · rename_i c
      simp only at h
      split at h
      · simp at h
      · split at h
        · simp at h
        · rename_i cg hcg
          split at h
          · simp at h
          · rename_i hnz
            split at h
            · simp at h
            · rename_i ois2 w3 heq
              simp only [Prod.mk.injEq, Except.ok.injEq] at h
              obtain ⟨h1, _⟩ := h
              subst h1
              obtain ⟨hlen, hpt⟩ := ih (k + 1) _ w3 ois2 heq
              refine ⟨by simp [hlen], ?_⟩
              intro i hi
              cases i with
              | zero =>
                exact ⟨c, cg, by simp, by simpa using hcg, hnz, by simp⟩
              | succ i =>
                obtain ⟨c2, cg2, e1, e2, e3, e4⟩ := hpt i (by simpa using hi)
                refine ⟨c2, cg2, by simpa using e1, by simpa using e2, e3, ?_⟩
                have : k + (i + 1) = k + 1 + i := by omega
                rw [this]
                simpa using e4

theorem motionInstances_total [Zero F] [One F] (be : Backend F) (context : Context)
    (ig : InstanceGroup F) (k : Nat) (l : List (Option Nat)) (w : World F)
    (hconv : ∀ off, (be.convertPointerToTraversableHandle off).isSome = true)
    (hch : ∀ i (hi : i < l.length), ∃ c cg, l[i] = some c ∧ w.group c = some cg ∧
      cg.traversable ≠ 0) :
    ∃ ois, (motionInstances be context ig k l w).1 = .ok ois := by
  induction l generalizing k w with
  | nil => exact ⟨[], rfl⟩
  | cons child rest ih =>
    obtain ⟨c, cg, e1, e2, e3⟩ := hch 0 (by simp)
    simp at e1
    subst e1
    have hrest : ∀ i (hi : i < rest.length), ∃ c cg, rest[i] = some c ∧
        (w.call (.convertPointerToTraversableHandle
          (k * be.sizeofOptixMatrixMotionTransform))).group c = some cg ∧
        cg.traversable ≠ 0 := by
      intro i hi
      obtain ⟨c2, cg2, f1, f2, f3⟩ := hch (i + 1) (by simpa using hi)
      exact ⟨c2, cg2, by simpa using f1, by simpa using f2, f3⟩
    obtain ⟨ois, hrec⟩ := ih (k + 1) _ hrest
    obtain ⟨hnd, hhnd⟩ := Option.isSome_iff_exists.mp
      (hconv (k * be.sizeofOptixMatrixMotionTransform))
    unfold motionInstances
    simp only [hhnd, World.group_call, e2, e3, if_false]
    cases hm : motionInstances be context ig (k + 1) rest
      (w.call (.convertPointerToTraversableHandle (k * be.sizeofOptixMatrixMotionTransform))) with
    | mk r w2 =>
      rw [hm] at hrec
      simp only at hrec
      subst hrec
      exact ⟨_, rfl⟩

/-! ## Lemmas on the shared tail of the two build paths -/

theorem uploadAndBuild_frame (FULL_REBUILD : Bool) (be : Backend F) (context : Context)
    (self : Nat) (oldActive : Int) (g : Group F) (ig : InstanceGroup F)
    (optixInstances : List (OptixInstance F)) (w : World F) :
    ∃ g2, (uploadAndBuild FULL_REBUILD be context self oldActive g ig optixInstances w).2.groups
          = w.groups.set self (some g2) ∧
      g2.numTimesReferenced = g.numTimesReferenced ∧
      g2.getSBTOffset = g.getSBTOffset ∧
      g2.instanceGroup = some { ig with optixInstanceBuffer := optixInstances } ∧
      (FULL_REBUILD = false → g2.bvhMemory = g.bvhMemory) ∧
      (FULL_REBUILD = true → ∀ sizes,
        be.accelComputeMemoryUsage .build optixInstances = some sizes →
          g2.bvhMemory.sizeInBytes = sizes.outputSizeInBytes) ∧
      BackendCall.accelComputeMemoryUsage (if FULL_REBUILD then .build else .update)
          optixInstances optixInstances.length
        ∈ (uploadAndBuild FULL_REBUILD be context self oldActive g ig optixInstances w).2.calls := by
  unfold uploadAndBuild
  cases FULL_REBUILD <;>
  · simp only [Bool.false_eq_true, if_false, if_true]
    split
    · simp only [World.groups_call, World.groups_setGroup, World.calls_call]
      exact ⟨_, rfl, rfl, rfl, rfl, by simp_all, by simp_all, by simp⟩
    · split
      · simp only [World.groups_call, World.groups_setGroup, List.set_set, World.calls_call]
        exact ⟨_, rfl, rfl, rfl, rfl, by simp_all, by simp_all [DeviceMemory.alloc], by simp⟩
      · split
        · simp only [World.groups_call, World.groups_setGroup, List.set_set, Context.popActive,
            World.calls_call]
          exact ⟨_, rfl, rfl, rfl, rfl, by simp_all, by simp_all [DeviceMemory.alloc], by simp⟩
        · simp only [World.groups_call, World.groups_setGroup, List.set_set, World.calls_call]
          exact ⟨_, rfl, rfl, rfl, rfl, by simp_all, by simp_all [DeviceMemory.alloc], by simp⟩

/-! ## Capacity check and precondition check -/

/-- C3: an EMPTY instance group (handle 0, accel memory empty) with more children than the
instance limit the backend reports: `buildAccel`, and each of the static and the motion-blur
build paths on its own, ends with the capacity error `std::runtime_error`; the group table is
as before the call, so the group still has handle 0 and empty accel memory. -/
theorem buildAccel_capacity_error [Zero F] [One F] (be : Backend F) (context : Context)
    (self : Nat) (w : World F) (g : Group F) (ig : InstanceGroup F) (limit : Nat)
    (hg : w.group self = some g) (hig : g.instanceGroup = some ig)
    (hhandle : g.traversable = 0) (hmem : g.bvhMemory.empty = true)
    (hlimit : be.maxInstancesPerIAS = some limit) (hcount : limit < ig.children.length) :
    ((buildAccel be context self w).1 = .fail .runtime_error ∧
      (buildAccel be context self w).2.groups = w.groups ∧
      (buildAccel be context self w).2.traversable self = 0 ∧
      ((buildAccel be context self w).2.bvhMemory self).empty = true) ∧
    ((buildOrRefit_staticInstances true be context self w).1 = .fail .runtime_error ∧
      (buildOrRefit_staticInstances true be context self w).2.groups = w.groups) ∧
    ((buildOrRefit_motionBlur true be context self w).1 = .fail .runtime_error ∧
      (buildOrRefit_motionBlur true be context self w).2.groups = w.groups) := by
  have hpre : preconditionHolds true g = true := by
    simp [preconditionHolds, hhandle, hmem]
  have hs : buildOrRefit_staticInstances true be context self w =
      (.fail .runtime_error, (context.pushActive w).2.call .deviceContextGetProperty) := by
    unfold buildOrRefit_staticInstances
    simp [hg, hig, hpre, hlimit, hcount]
  have hm : buildOrRefit_motionBlur true be context self w =
      (.fail .runtime_error, (context.pushActive w).2.call .deviceContextGetProperty) := by
    unfold buildOrRefit_motionBlur
    simp [hg, hig, hpre, hlimit, hcount]
  have hb : buildAccel be context self w =
      (.fail .runtime_error, (context.pushActive w).2.call .deviceContextGetProperty) := by
    unfold buildAccel
    simp only [hg, hig]
    split
    · exact hs
    · exact hm
  have hgrp : ((context.pushActive w).2.call .deviceContextGetProperty).group self = some g := hg
  refine ⟨⟨by rw [hb], by rw [hb]; rfl, ?_, ?_⟩, ⟨by rw [hs], by rw [hs]; rfl⟩,
    ⟨by rw [hm], by rw [hm]; rfl⟩⟩
  · rw [hb]
    simp [World.traversable, hgrp, hhandle]
  · rw [hb]
    simp [World.bvhMemory, hgrp, hmem]

/-- C3 (witness): group 0 of `worldStatic` has two children, the backend reports a limit of 1. -/
theorem buildAccel_capacity_error_witness :
    (buildAccel backendLimit1 context1 0 worldStatic).1 = .fail .runtime_error ∧
    (buildAccel backendLimit1 context1 0 worldStatic).2.traversable 0 = 0 ∧
    ((buildAccel backendLimit1 context1 0 worldStatic).2.bvhMemory 0).empty = true :=
  have h := buildAccel_capacity_error backendLimit1 context1 0 worldStatic instanceGroupStatic
    { children := [some 1, some 1], transforms0 := some slotXfm, transforms1 := none,
      instanceIDs := none, optixInstanceBuffer := [], motionTransformsBuffer := [] } 1
    rfl rfl rfl rfl rfl (by decide)
  ⟨h.1.1, h.1.2.2.1, h.1.2.2.2⟩

/-- C5: the precondition check of build and refit.  `refitAccel` on a group whose handle is 0
or whose accel memory is empty, and `buildAccel` on a group whose handle is non-zero or whose
accel memory is non-empty, end with a failed assertion, and the state returned is the state
before the call: no group has changed, the current device is the same, and no backend call has
been recorded.  The same holds for the static and the motion-blur path taken on their own. -/
theorem precondition_check [Zero F] [One F] (be : Backend F) (context : Context)
    (self : Nat) (w : World F) (g : Group F) (ig : InstanceGroup F)
    (hg : w.group self = some g) (hig : g.instanceGroup = some ig) :
    ((g.traversable = 0 ∨ g.bvhMemory.empty = true) →
      refitAccel be context self w = (.fail .assertion, w) ∧
      buildOrRefit_staticInstances false be context self w = (.fail .assertion, w) ∧
      buildOrRefit_motionBlur false be context self w = (.fail .assertion, w)) ∧
    ((g.traversable ≠ 0 ∨ g.bvhMemory.empty = false) →
      buildAccel be context self w = (.fail .assertion, w) ∧
      buildOrRefit_staticInstances true be context self w = (.fail .assertion, w) ∧
      buildOrRefit_motionBlur true be context self w = (.fail .assertion, w)) := by
  constructor
  · intro h
    have hpre : preconditionHolds false g = false := by
      rcases h with h | h <;> simp [preconditionHolds, h]
    have hs : buildOrRefit_staticInstances false be context self w = (.fail .assertion, w) := by
      unfold buildOrRefit_staticInstances
      simp [hg, hig, hpre]
    have hm : buildOrRefit_motionBlur false be context self w = (.fail .assertion, w) := by
      unfold buildOrRefit_motionBlur
      simp [hg, hig, hpre]
    refine ⟨?_, hs, hm⟩
    unfold refitAccel
    simp only [hg, hig]
    split
    · exact hs
    · exact hm
  · intro h
    have hpre : preconditionHolds true g = false := by
      rcases h with h | h <;> simp [preconditionHolds, h]
    have hs : buildOrRefit_staticInstances true be context self w = (.fail .assertion, w) := by
      unfold buildOrRefit_staticInstances
      simp [hg, hig, hpre]
    have hm : buildOrRefit_motionBlur true be context self w = (.fail .assertion, w) := by
      unfold buildOrRefit_motionBlur
      simp [hg, hig, hpre]
    refine ⟨?_, hs, hm⟩
    unfold buildAccel
    simp only [hg, hig]
    split
    · exact hs
    · exact hm

/-- C5 (witness): `refitAccel` on the never-built group 0 of `worldStatic`. -/
theorem precondition_check_witness :
    refitAccel backendOk context1 0 worldStatic = (.fail .assertion, worldStatic) :=
  ((precondition_check backendOk context1 0 worldStatic instanceGroupStatic
    { children := [some 1, some 1], transforms0 := some slotXfm, transforms1 := none,
      instanceIDs := none, optixInstanceBuffer := [], motionTransformsBuffer := [] }
    rfl rfl).1 (Or.inl rfl)).1

/-- C4 (the code at the failing input): device 0 is current and the context is bound to
device 1.  `buildAccel` ends with the capacity error (two children, limit 1), respectively with a
failed backend build call, and device 1 is left current: `popActive` has not run. -/
theorem buildAccel_failure_leaves_device_pushed :
    worldStatic.activeDevice = 0 ∧
    (buildAccel backendLimit1 context1 0 worldStatic).1 = .fail .runtime_error ∧
    (buildAccel backendLimit1 context1 0 worldStatic).2.activeDevice = 1 ∧
    (buildAccel backendBuildFails context1 0 worldStatic).1 = .fail .optix_check ∧
    (buildAccel backendBuildFails context1 0 worldStatic).2.activeDevice = 1 := by
  decide

/-- C2 (the code at the failing input): group 0 of `worldStatic` is EMPTY (handle 0, memory
empty).  On a backend whose build call fails, `buildAccel` ends with the failed check after the
accel memory has been allocated: the handle is 0 and the memory holds 256 bytes.  A following
`destroyAccel` returns normally and frees nothing, and a following `buildAccel` on a working
backend fails its precondition. -/
theorem failed_build_leaves_memory_without_handle :
    worldStatic.traversable 0 = 0 ∧
    (worldStatic.bvhMemory 0).empty = true ∧
    (buildAccel backendBuildFails context1 0 worldStatic).1 = .fail .optix_check ∧
    (buildAccel backendBuildFails context1 0 worldStatic).2.traversable 0 = 0 ∧
    (buildAccel backendBuildFails context1 0 worldStatic).2.bvhMemory 0 = ⟨256⟩ ∧
    (destroyAccel context1 0 (buildAccel backendBuildFails context1 0 worldStatic).2).1 = .ok ∧
    (destroyAccel context1 0
      (buildAccel backendBuildFails context1 0 worldStatic).2).2.traversable 0 = 0 ∧
    (destroyAccel context1 0
      (buildAccel backendBuildFails context1 0 worldStatic).2).2.bvhMemory 0 = ⟨256⟩ ∧
    (buildAccel backendOk context1 0
      (destroyAccel context1 0 (buildAccel backendBuildFails context1 0 worldStatic).2).2).1
        = .fail .assertion := by
  decide

/-! ## The two build paths up to the shared tail -/

theorem transformOf_eq_rowMajor (xfm : affine3f F) :
    transformOf xfm = rowMajor3x4 xfm.entry := by
  rfl

theorem staticInstance_ok (context : Context) (w : World F) (ig : InstanceGroup F)
    (t0 : Nat → affine3f F) (childID c : Nat) (cg : Group F)
    (ht1 : ig.transforms1 = none) (ht0 : ig.transforms0 = some t0)
    (hc : w.group c = some cg) (hb : cg.traversable ≠ 0) :
    staticInstance context w ig childID (some c) = .ok
      { transform := transformOf (t0 childID)
        flags := 0
        instanceId := instanceIdOf ig childID
        visibilityMask := 255
        sbtOffset := context.numRayTypes * cg.getSBTOffset
        traversableHandle := cg.traversable } := by
  simp [staticInstance, ht1, ht0, hc, hb]

theorem static_reach (FULL_REBUILD : Bool) (be : Backend F) (context : Context)
    (self : Nat) (w : World F) (g : Group F) (ig : InstanceGroup F) (limit : Nat)
    (t0 : Nat → affine3f F)
    (hg : w.group self = some g) (hig : g.instanceGroup = some ig)
    (hpre : preconditionHolds FULL_REBUILD g = true)
    (hlimit : be.maxInstancesPerIAS = some limit) (hcount : ig.children.length ≤ limit)
    (ht1 : ig.transforms1 = none) (ht0 : ig.transforms0 = some t0)
    (hch : ∀ i (hi : i < ig.children.length), ∃ c cg, ig.children[i] = some c ∧
      w.group c = some cg ∧ cg.traversable ≠ 0) :
    ∃ insts, forChildren (staticInstance context w ig) 0 ig.children = .ok insts ∧
      buildOrRefit_staticInstances FULL_REBUILD be context self w =
        uploadAndBuild FULL_REBUILD be context self w.activeDevice g ig insts
          ((context.pushActive w).2.call .deviceContextGetProperty) := by
  obtain ⟨insts, hinsts⟩ := forChildren_total (staticInstance context w ig) 0 ig.children
    (by
      intro i hi
      obtain ⟨c, cg, e1, e2, e3⟩ := hch i hi
      exact ⟨_, by rw [e1]; exact staticInstance_ok context w ig t0 (0 + i) c cg ht1 ht0 e2 e3⟩)
  refine ⟨insts, hinsts, ?_⟩
  have hsame : staticInstance context
      (World.call { groups := w.groups, activeDevice := context.cudaDeviceID, calls := w.calls }
        .deviceContextGetProperty) ig
        = staticInstance context w ig := rfl
  unfold buildOrRefit_staticInstances
  simp only [hg, hig, hpre, hlimit, Context.pushActive]
  rw [hsame, hinsts]
  simp [Nat.not_lt.mpr hcount]

theorem World.group_set_fields (w v : World F) (self : Nat) (g g2 : Group F)
    (hg : w.group self = some g) (hv : v.groups = w.groups.set self (some g2))
    (htr : g2.traversable = g.traversable) (hsbt : g2.getSBTOffset = g.getSBTOffset)
    (c : Nat) (cg : Group F) (hc : w.group c = some cg) :
    ∃ cg2, v.group c = some cg2 ∧ cg2.traversable = cg.traversable ∧
      cg2.getSBTOffset = cg.getSBTOffset := by
  by_cases hcs : self = c
  · subst hcs
    rw [hg] at hc
    cases hc
    exact ⟨g2, World.group_set_self w v self g2 (w.group_lt self g hg) hv, htr, hsbt⟩
  · exact ⟨cg, by rw [World.group_set_ne w v self c g2 hcs hv]; exact hc, rfl, rfl⟩

theorem motionTransform_ok [Zero F] [One F] (w : World F) (ig : InstanceGroup F)
    (t0 t1 : Nat → affine3f F) (childID c : Nat) (cg : Group F)
    (ht0 : ig.transforms0 = some t0) (ht1 : ig.transforms1 = some t1)
    (hc : w.group c = some cg) :
    motionTransform w ig childID (some c) = .ok
      { child := cg.traversable
        motionOptions := { numKeys := 2, timeBegin := 0, timeEnd := 1, flags := 0 }
        transform := [transformOf (t0 childID), transformOf (t1 childID)] } := by
  simp [motionTransform, ht0, ht1, hc]

theorem motion_reach [Zero F] [One F] (FULL_REBUILD : Bool) (be : Backend F)
    (context : Context) (self : Nat) (w : World F) (g : Group F) (ig : InstanceGroup F)
    (limit : Nat) (t0 t1 : Nat → affine3f F)
    (hg : w.group self = some g) (hig : g.instanceGroup = some ig)
    (hpre : preconditionHolds FULL_REBUILD g = true)
    (hlimit : be.maxInstancesPerIAS = some limit) (hcount : ig.children.length ≤ limit)
    (ht0 : ig.transforms0 = some t0) (ht1 : ig.transforms1 = some t1)
    (hconv : ∀ off, (be.convertPointerToTraversableHandle off).isSome = true)
    (hch : ∀ i (hi : i < ig.children.length), ∃ c cg, ig.children[i] = some c ∧
      w.group c = some cg ∧ cg.traversable ≠ 0) :
    ∃ mts insts w2,
      forChildren (motionTransform w ig) 0 ig.children = .ok mts ∧
      motionInstances be context { ig with motionTransformsBuffer := mts } 0 ig.children
        ((World.call { groups := w.groups, activeDevice := context.cudaDeviceID, calls := w.calls }
            .deviceContextGetProperty).setGroup self
          { g with instanceGroup := some { ig with motionTransformsBuffer := mts } })
        = (.ok insts, w2) ∧
      buildOrRefit_motionBlur FULL_REBUILD be context self w =
        uploadAndBuild FULL_REBUILD be context self w.activeDevice
          { g with instanceGroup := some { ig with motionTransformsBuffer := mts } }
          { ig with motionTransformsBuffer := mts } insts w2 := by
  obtain ⟨mts, hmts⟩ := forChildren_total (motionTransform w ig) 0 ig.children
    (by
      intro i hi
      obtain ⟨c, cg, e1, e2, _⟩ := hch i hi
      exact ⟨_, by rw [e1]; exact motionTransform_ok w ig t0 t1 (0 + i) c cg ht0 ht1 e2⟩)
  have hch2 : ∀ i (hi : i < ig.children.length), ∃ c cg, ig.children[i] = some c ∧
      ((World.call { groups := w.groups, activeDevice := context.cudaDeviceID, calls := w.calls }
            .deviceContextGetProperty).setGroup self
          { g with instanceGroup := some { ig with motionTransformsBuffer := mts } }).group c
        = some cg ∧ cg.traversable ≠ 0 := by
    intro i hi
    obtain ⟨c, cg, e1, e2, e3⟩ := hch i hi
    obtain ⟨cg2, f1, f2, _⟩ := World.group_set_fields w
      ((World.call { groups := w.groups, activeDevice := context.cudaDeviceID, calls := w.calls }
            .deviceContextGetProperty).setGroup self
          { g with instanceGroup := some { ig with motionTransformsBuffer := mts } }) self g
      { g with instanceGroup := some { ig with motionTransformsBuffer := mts } } hg rfl rfl rfl
      c cg e2
    exact ⟨c, cg2, e1, f1, by rw [f2]; exact e3⟩
  obtain ⟨insts, hinsts⟩ := motionInstances_total be context
    { ig with motionTransformsBuffer := mts } 0 ig.children _ hconv hch2
  cases hm : motionInstances be context { ig with motionTransformsBuffer := mts } 0 ig.children
      ((World.call { groups := w.groups, activeDevice := context.cudaDeviceID, calls := w.calls }
            .deviceContextGetProperty).setGroup self
          { g with instanceGroup := some { ig with motionTransformsBuffer := mts } }) with
  | mk r w2 =>
    rw [hm] at hinsts
    simp only at hinsts
    subst hinsts
    refine ⟨mts, insts, w2, hmts, hm, ?_⟩
    have hsame : motionTransform
        (World.call { groups := w.groups, activeDevice := context.cudaDeviceID, calls := w.calls }
          .deviceContextGetProperty) ig
          = motionTransform w ig := rfl
    unfold buildOrRefit_motionBlur
    simp only [hg, hig, hpre, hlimit, Context.pushActive]
    rw [hsame, hmts]
    have hn : ig.transforms1.isNone = false := by simp [ht1]
    simp [Nat.not_lt.mpr hcount, hn, hm]

/-! ## Successful full build, destroy -/

theorem uploadAndBuild_ok (be : Backend F) (context : Context) (self : Nat) (oldActive : Int)
    (g : Group F) (ig : InstanceGroup F) (insts : List (OptixInstance F)) (w : World F)
    (sizes : OptixAccelBufferSizes) (handle : Nat)
    (hs : be.accelComputeMemoryUsage .build insts = some sizes)
    (hb : be.accelBuild .build insts sizes.tempSizeInBytes sizes.outputSizeInBytes = some handle)
    (hsync : be.deviceSynchronize = true) :
    (uploadAndBuild true be context self oldActive g ig insts w).1 = .ok ∧
    (uploadAndBuild true be context self oldActive g ig insts w).2.activeDevice = oldActive ∧
    (uploadAndBuild true be context self oldActive g ig insts w).2.groups =
      w.groups.set self (some
        { g with
          instanceGroup := some { ig with optixInstanceBuffer := insts }
          bvhMemory := ⟨sizes.outputSizeInBytes⟩
          traversable := handle }) := by
  unfold uploadAndBuild
  simp only [if_true, hs, DeviceMemory.alloc, DeviceMemory.size, hb, hsync]
  simp [Context.popActive, List.set_set]

theorem destroyAccel_built (context : Context) (self : Nat) (w : World F) (g : Group F)
    (ig : InstanceGroup F) (hg : w.group self = some g) (hig : g.instanceGroup = some ig)
    (hh : g.traversable ≠ 0) :
    (destroyAccel context self w).1 = .ok ∧
    (destroyAccel context self w).2.activeDevice = w.activeDevice ∧
    (destroyAccel context self w).2.groups =
      w.groups.set self (some { g with bvhMemory := ⟨0⟩, traversable := 0 }) := by
  unfold destroyAccel
  simp [hg, hig, hh, Context.pushActive, Context.popActive, DeviceMemory.free]

theorem buildAccel_ok [Zero F] [One F] (be : Backend F) (context : Context) (self : Nat)
    (w : World F) (g : Group F) (ig : InstanceGroup F) (limit : Nat)
    (hg : w.group self = some g) (hig : g.instanceGroup = some ig)
    (hhandle : g.traversable = 0) (hmem : g.bvhMemory.empty = true)
    (hlimit : be.maxInstancesPerIAS = some limit) (hcount : ig.children.length ≤ limit)
    (ht0 : ig.transforms0.isSome = true)
    (hch : ∀ i (hi : i < ig.children.length), ∃ c cg, ig.children[i] = some c ∧
      w.group c = some cg ∧ cg.traversable ≠ 0)
    (hconv : ∀ off, (be.convertPointerToTraversableHandle off).isSome = true)
    (hsize : ∀ insts, (be.accelComputeMemoryUsage .build insts).isSome = true)
    (hbuild : ∀ insts t o, ∃ h, be.accelBuild .build insts t o = some h ∧ h ≠ 0)
    (hsync : be.deviceSynchronize = true) :
    ∃ g2 insts mts, (buildAccel be context self w).1 = .ok ∧
      (buildAccel be context self w).2.activeDevice = w.activeDevice ∧
      (buildAccel be context self w).2.groups = w.groups.set self (some g2) ∧
      g2.traversable ≠ 0 ∧
      g2.instanceGroup = some
        { ig with optixInstanceBuffer := insts, motionTransformsBuffer := mts } := by
  have hpre : preconditionHolds true g = true := by
    simp [preconditionHolds, hhandle, hmem]
  obtain ⟨t0, ht0⟩ := Option.isSome_iff_exists.mp ht0
  obtain ht1 | ⟨t1, ht1⟩ : ig.transforms1 = none ∨ ∃ t1, ig.transforms1 = some t1 := by
    cases ig.transforms1 <;> simp
  · obtain ⟨insts, _, heq⟩ := static_reach true be context self w g ig limit t0 hg hig hpre
      hlimit hcount ht1 ht0 hch
    obtain ⟨sizes, hs⟩ := Option.isSome_iff_exists.mp (hsize insts)
    obtain ⟨h, hb, hnz⟩ := hbuild insts sizes.tempSizeInBytes sizes.outputSizeInBytes
    have hdisp : buildAccel be context self w
        = buildOrRefit_staticInstances true be context self w := by
      unfold buildAccel
      simp [hg, hig, ht1]
    obtain ⟨k1, k2, k3⟩ := uploadAndBuild_ok be context self w.activeDevice g ig insts
      ((context.pushActive w).2.call .deviceContextGetProperty) sizes h hs hb hsync
    rw [hdisp, heq]
    exact ⟨_, _, _, k1, k2, k3, hnz, rfl⟩
  · obtain ⟨mts, insts, w2, _, hm, heq⟩ := motion_reach true be context self w g ig limit t0 t1
      hg hig hpre hlimit hcount ht0 ht1 hconv hch
    obtain ⟨sizes, hs⟩ := Option.isSome_iff_exists.mp (hsize insts)
    obtain ⟨h, hb, hnz⟩ := hbuild insts sizes.tempSizeInBytes sizes.outputSizeInBytes
    have hdisp : buildAccel be context self w
        = buildOrRefit_motionBlur true be context self w := by
      unfold buildAccel
      simp [hg, hig, ht1]
    obtain ⟨f1, _⟩ := motionInstances_frame be context
      { ig with motionTransformsBuffer := mts } 0 ig.children
      ((World.call { groups := w.groups, activeDevice := context.cudaDeviceID, calls := w.calls }
            .deviceContextGetProperty).setGroup self
          { g with instanceGroup := some { ig with motionTransformsBuffer := mts } })
    rw [hm] at f1
    simp only [World.groups_setGroup, World.groups_call] at f1
    obtain ⟨k1, k2, k3⟩ := uploadAndBuild_ok be context self w.activeDevice
      { g with instanceGroup := some { ig with motionTransformsBuffer := mts } }
      { ig with motionTransformsBuffer := mts } insts w2 sizes h hs hb hsync
    rw [f1, List.set_set] at k3
    rw [hdisp, heq]
    exact ⟨_, _, _, k1, k2, k3, hnz, rfl⟩

/-- C6: round trip.  For an EMPTY instance group whose time-step-0 transforms are present,
whose children are all set and built and whose child count is within the backend limit, on a
backend whose calls succeed and whose build call returns a non-zero handle, the sequence
`buildAccel; destroyAccel; buildAccel` returns normally at every step; the handle is non-zero
after each of the two builds, and after the destroy the handle is 0 and the accel memory has
size 0. -/
theorem build_destroy_build [Zero F] [One F] (be : Backend F) (context : Context) (self : Nat)
    (w : World F) (g : Group F) (ig : InstanceGroup F) (limit : Nat)
    (hg : w.group self = some g) (hig : g.instanceGroup = some ig)
    (hhandle : g.traversable = 0) (hmem : g.bvhMemory.empty = true)
    (hlimit : be.maxInstancesPerIAS = some limit) (hcount : ig.children.length ≤ limit)
    (ht0 : ig.transforms0.isSome = true)
    (hch : ∀ i (hi : i < ig.children.length), ∃ c cg, ig.children[i] = some c ∧
      w.group c = some cg ∧ cg.traversable ≠ 0)
    (hconv : ∀ off, (be.convertPointerToTraversableHandle off).isSome = true)
    (hsize : ∀ insts, (be.accelComputeMemoryUsage .build insts).isSome = true)
    (hbuild : ∀ insts t o, ∃ h, be.accelBuild .build insts t o = some h ∧ h ≠ 0)
    (hsync : be.deviceSynchronize = true) :
    (buildAccel be context self w).1 = .ok ∧
    (buildAccel be context self w).2.traversable self ≠ 0 ∧
    (destroyAccel context self (buildAccel be context self w).2).1 = .ok ∧
    (destroyAccel context self (buildAccel be context self w).2).2.traversable self = 0 ∧
    ((destroyAccel context self (buildAccel be context self w).2).2.bvhMemory self).size = 0 ∧
    (buildAccel be context self
      (destroyAccel context self (buildAccel be context self w).2).2).1 = .ok ∧
    (buildAccel be context self
      (destroyAccel context self (buildAccel be context self w).2).2).2.traversable self ≠ 0 := by
  have hlt := w.group_lt self g hg
  obtain ⟨g1, insts, mts, a1, _, a3, a4, a5⟩ := buildAccel_ok be context self w g ig limit hg hig
    hhandle hmem hlimit hcount ht0 hch hconv hsize hbuild hsync
  have hv1 := World.group_set_self w (buildAccel be context self w).2 self g1 hlt a3
  obtain ⟨d1, _, d3⟩ := destroyAccel_built context self (buildAccel be context self w).2 g1 _
    hv1 a5 a4
  rw [a3, List.set_set] at d3
  have hv2 := World.group_set_self w
    (destroyAccel context self (buildAccel be context self w).2).2 self _ hlt d3
  have hch2 : ∀ i (hi : i < ig.children.length), ∃ c cg, ig.children[i] = some c ∧
      (destroyAccel context self (buildAccel be context self w).2).2.group c = some cg ∧
      cg.traversable ≠ 0 := by
    intro i hi
    obtain ⟨c, cg, e1, e2, e3⟩ := hch i hi
    have hne : self ≠ c := by
      intro hsc
      subst hsc
      rw [hg] at e2
      cases e2
      exact e3 hhandle
    exact ⟨c, cg, e1, by rw [World.group_set_ne w _ self c _ hne d3]; exact e2, e3⟩
  obtain ⟨g3, _, _, b1, _, b3, b4, _⟩ := buildAccel_ok be context self
    (destroyAccel context self (buildAccel be context self w).2).2
    { g1 with bvhMemory := ⟨0⟩, traversable := 0 }
    { ig with optixInstanceBuffer := insts, motionTransformsBuffer := mts } limit
    hv2 a5 rfl rfl hlimit hcount ht0 hch2 hconv hsize hbuild hsync
  have hlt2 : self < (destroyAccel context self (buildAccel be context self w).2).2.groups.length := by
    rw [d3]
    simpa using hlt
  have hv3 := World.group_set_self _ _ self g3 hlt2 b3
  refine ⟨a1, ?_, d1, ?_, ?_, b1, ?_⟩
  · simp [World.traversable, hv1, a4]
  · simp [World.traversable, hv2]
  · simp [World.bvhMemory, hv2, DeviceMemory.size]
  · simp [World.traversable, hv3, b4]

/-- C6 (witness): the round trip on group 0 of `worldMotion` with the backend `backendOk`. -/
theorem build_destroy_build_witness :
    (buildAccel backendOk context1 0 worldMotion).1 = .ok ∧
    (buildAccel backendOk context1 0 worldMotion).2.traversable 0 ≠ 0 ∧
    (destroyAccel context1 0 (buildAccel backendOk context1 0 worldMotion).2).1 = .ok ∧
    (destroyAccel context1 0 (buildAccel backendOk context1 0 worldMotion).2).2.traversable 0
      = 0 ∧
    ((destroyAccel context1 0 (buildAccel backendOk context1 0 worldMotion).2).2.bvhMemory
      0).size = 0 ∧
    (buildAccel backendOk context1 0
      (destroyAccel context1 0 (buildAccel backendOk context1 0 worldMotion).2).2).1 = .ok ∧
    (buildAccel backendOk context1 0
      (destroyAccel context1 0 (buildAccel backendOk context1 0 worldMotion).2).2).2.traversable 0
        ≠ 0 :=
  build_destroy_build backendOk context1 0 worldMotion instanceGroupMotion
    { children := [some 1, some 1], transforms0 := some slotXfm,
      transforms1 := some (fun _ => identityXfm),
      instanceIDs := some (fun i => 100 + i), optixInstanceBuffer := [],
      motionTransformsBuffer := [] } 16
    rfl rfl rfl rfl rfl (by decide) rfl
    (by
      intro i hi
      refine ⟨1, geomGroupBuilt, ?_, rfl, by decide⟩
      have hi2 : i < 2 := hi
      interval_cases i <;> rfl)
    (fun _ => rfl) (fun _ => rfl) (fun _ _ _ => ⟨42, rfl, by decide⟩) rfl

/-! ## What the two paths leave in the buffers -/

theorem World.accessors_of_group (w : World F) (self : Nat) (g : Group F)
    (ig : InstanceGroup F) (hg : w.group self = some g) (hig : g.instanceGroup = some ig) :
    w.optixInstanceBuffer self = ig.optixInstanceBuffer ∧
    w.motionTransformsBuffer self = ig.motionTransformsBuffer ∧
    w.bvhMemory self = g.bvhMemory ∧
    w.traversable self = g.traversable := by
  simp [World.optixInstanceBuffer, World.motionTransformsBuffer, World.bvhMemory,
    World.traversable, hg, hig]

theorem static_summary (FULL_REBUILD : Bool) (be : Backend F) (context : Context)
    (self : Nat) (w : World F) (g : Group F) (ig : InstanceGroup F) (limit : Nat)
    (t0 : Nat → affine3f F)
    (hg : w.group self = some g) (hig : g.instanceGroup = some ig)
    (hpre : preconditionHolds FULL_REBUILD g = true)
    (hlimit : be.maxInstancesPerIAS = some limit) (hcount : ig.children.length ≤ limit)
    (ht1 : ig.transforms1 = none) (ht0 : ig.transforms0 = some t0)
    (hch : ∀ i (hi : i < ig.children.length), ∃ c cg, ig.children[i] = some c ∧
      w.group c = some cg ∧ cg.traversable ≠ 0) :
    ((buildOrRefit_staticInstances FULL_REBUILD be context self w).2.optixInstanceBuffer
        self).length = ig.children.length ∧
    (∀ i (hi : i < ig.children.length) c cg, ig.children[i] = some c → w.group c = some cg →
      ((buildOrRefit_staticInstances FULL_REBUILD be context self w).2.optixInstanceBuffer
        self)[i]? = some
          { transform := transformOf (t0 i)
            flags := 0
            instanceId := instanceIdOf ig i
            visibilityMask := 255
            sbtOffset := context.numRayTypes * cg.getSBTOffset
            traversableHandle := cg.traversable }) ∧
    BackendCall.accelComputeMemoryUsage (if FULL_REBUILD then .build else .update)
        ((buildOrRefit_staticInstances FULL_REBUILD be context self w).2.optixInstanceBuffer self)
        ig.children.length
      ∈ (buildOrRefit_staticInstances FULL_REBUILD be context self w).2.calls ∧
    (FULL_REBUILD = false →
      (buildOrRefit_staticInstances FULL_REBUILD be context self w).2.bvhMemory self
        = g.bvhMemory) ∧
    (FULL_REBUILD = true → ∀ sizes,
      be.accelComputeMemoryUsage .build
        ((buildOrRefit_staticInstances FULL_REBUILD be context self w).2.optixInstanceBuffer self)
          = some sizes →
      ((buildOrRefit_staticInstances FULL_REBUILD be context self w).2.bvhMemory self).size
        = sizes.outputSizeInBytes) := by
  obtain ⟨insts, hinsts, heq⟩ := static_reach FULL_REBUILD be context self w g ig limit t0
    hg hig hpre hlimit hcount ht1 ht0 hch
  obtain ⟨g2, f1, _, _, f4, f5, f6, f7⟩ := uploadAndBuild_frame FULL_REBUILD be context self
    w.activeDevice g ig insts ((context.pushActive w).2.call .deviceContextGetProperty)
  rw [← heq] at f1 f7
  have hpost := World.group_set_self w _ self g2 (w.group_lt self g hg) f1
  obtain ⟨p1, _, p3, _⟩ := World.accessors_of_group _ self g2 _ hpost f4
  obtain ⟨hlen, hpt⟩ := forChildren_eq_ok _ 0 ig.children insts hinsts
  rw [p1, p3]
  refine ⟨hlen, ?_, ?_, f5, ?_⟩
  · intro i hi c cg hc hcg
    obtain ⟨a, ha, hai⟩ := hpt i hi
    obtain ⟨c2, cg2, e1, e2, e3⟩ := hch i hi
    rw [hc] at e1
    cases e1
    rw [hcg] at e2
    cases e2
    rw [hc, staticInstance_ok context w ig t0 (0 + i) c cg ht1 ht0 hcg e3] at ha
    simp only [Except.ok.injEq] at ha
    rw [hai, ← ha]
    simp
  · rw [← hlen]
    exact f7
  · intro hfull sizes hs
    exact f6 hfull sizes hs

theorem motion_summary [Zero F] [One F] (FULL_REBUILD : Bool) (be : Backend F)
    (context : Context) (self : Nat) (w : World F) (g : Group F) (ig : InstanceGroup F)
    (limit : Nat) (t0 t1 : Nat → affine3f F)
    (hg : w.group self = some g) (hig : g.instanceGroup = some ig)
    (hpre : preconditionHolds FULL_REBUILD g = true)
    (hlimit : be.maxInstancesPerIAS = some limit) (hcount : ig.children.length ≤ limit)
    (ht0 : ig.transforms0 = some t0) (ht1 : ig.transforms1 = some t1)
    (hconv : ∀ off, (be.convertPointerToTraversableHandle off).isSome = true)
    (hch : ∀ i (hi : i < ig.children.length), ∃ c cg, ig.children[i] = some c ∧
      w.group c = some cg ∧ cg.traversable ≠ 0) :
    ((buildOrRefit_motionBlur FULL_REBUILD be context self w).2.optixInstanceBuffer
        self).length = ig.children.length ∧
    (∀ i (hi : i < ig.children.length) c cg, ig.children[i] = some c → w.group c = some cg →
      ((buildOrRefit_motionBlur FULL_REBUILD be context self w).2.optixInstanceBuffer
        self)[i]? = some
          { transform := transformLiteral
            flags := 0
            instanceId := instanceIdOf ig i
            visibilityMask := 255
            sbtOffset := context.numRayTypes * cg.getSBTOffset
            traversableHandle := cg.traversable }) ∧
    ((buildOrRefit_motionBlur FULL_REBUILD be context self w).2.motionTransformsBuffer
        self).length = ig.children.length ∧
    (∀ i (hi : i < ig.children.length) c cg, ig.children[i] = some c → w.group c = some cg →
      ((buildOrRefit_motionBlur FULL_REBUILD be context self w).2.motionTransformsBuffer
        self)[i]? = some
          { child := cg.traversable
            motionOptions := { numKeys := 2, timeBegin := 0, timeEnd := 1, flags := 0 }
            transform := [transformOf (t0 i), transformOf (t1 i)] }) ∧
    BackendCall.accelComputeMemoryUsage (if FULL_REBUILD then .build else .update)
        ((buildOrRefit_motionBlur FULL_REBUILD be context self w).2.optixInstanceBuffer self)
        ig.children.length
      ∈ (buildOrRefit_motionBlur FULL_REBUILD be context self w).2.calls ∧
    (FULL_REBUILD = false →
      (buildOrRefit_motionBlur FULL_REBUILD be context self w).2.bvhMemory self
        = g.bvhMemory) ∧
    (FULL_REBUILD = true → ∀ sizes,
      be.accelComputeMemoryUsage .build
        ((buildOrRefit_motionBlur FULL_REBUILD be context self w).2.optixInstanceBuffer self)
          = some sizes →
      ((buildOrRefit_motionBlur FULL_REBUILD be context self w).2.bvhMemory self).size
        = sizes.outputSizeInBytes) := by
  obtain ⟨mts, insts, w2, hmts, hm, heq⟩ := motion_reach FULL_REBUILD be context self w g ig
    limit t0 t1 hg hig hpre hlimit hcount ht0 ht1 hconv hch
  obtain ⟨m1, _⟩ := motionInstances_frame be context
    { ig with motionTransformsBuffer := mts } 0 ig.children
    ((World.call { groups := w.groups, activeDevice := context.cudaDeviceID, calls := w.calls }
          .deviceContextGetProperty).setGroup self
        { g with instanceGroup := some { ig with motionTransformsBuffer := mts } })
  rw [hm] at m1
  simp only [World.groups_setGroup, World.groups_call] at m1
  obtain ⟨g2, f1, _, _, f4, f5, f6, f7⟩ := uploadAndBuild_frame FULL_REBUILD be context self
    w.activeDevice { g with instanceGroup := some { ig with motionTransformsBuffer := mts } }
    { ig with motionTransformsBuffer := mts } insts w2
  rw [← heq] at f1 f7
  rw [m1, List.set_set] at f1
  have hpost := World.group_set_self w _ self g2 (w.group_lt self g hg) f1
  obtain ⟨p1, p2, p3, _⟩ := World.accessors_of_group _ self g2 _ hpost f4
  obtain ⟨hlen, hpt⟩ := forChildren_eq_ok _ 0 ig.children mts hmts
  obtain ⟨ilen, ipt⟩ := motionInstances_eq_ok be context _ 0 ig.children _ w2 insts hm
  rw [p1, p2, p3]
  refine ⟨ilen, ?_, hlen, ?_, ?_, f5, ?_⟩
  · intro i hi c cg hc hcg
    obtain ⟨c2, cg2, e1, e2, _, e4⟩ := ipt i hi
    rw [hc] at e1
    cases e1
    obtain ⟨cg3, k1, k2, k3⟩ := World.group_set_fields w
      ((World.call { groups := w.groups, activeDevice := context.cudaDeviceID, calls := w.calls }
          .deviceContextGetProperty).setGroup self
        { g with instanceGroup := some { ig with motionTransformsBuffer := mts } }) self g
      { g with instanceGroup := some { ig with motionTransformsBuffer := mts } } hg rfl rfl rfl
      c cg hcg
    rw [k1] at e2
    cases e2
    rw [e4, k2, k3]
    simp [instanceIdOf]
  · intro i hi c cg hc hcg
    obtain ⟨a, ha, hai⟩ := hpt i hi
    rw [hc, motionTransform_ok w ig t0 t1 (0 + i) c cg ht0 ht1 hcg] at ha
    simp only [Except.ok.injEq] at ha
    rw [hai, ← ha]
    simp
  · rw [← ilen]
    exact f7
  · intro hfull sizes hs
    exact f6 hfull sizes hs

/-! ## Refit leaves the accel memory block alone -/

theorem World.bvhMemory_of_groups (w v : World F) (self : Nat) (h : v.groups = w.groups) :
    v.bvhMemory self = w.bvhMemory self := by
  unfold World.bvhMemory
  rw [World.group_of_groups w v h]

theorem World.bvhMemory_of_set (w v : World F) (self : Nat) (g g2 : Group F)
    (hg : w.group self = some g) (h : v.groups = w.groups.set self (some g2))
    (hm : g2.bvhMemory = g.bvhMemory) :
    v.bvhMemory self = w.bvhMemory self := by
  unfold World.bvhMemory
  rw [World.group_set_self w v self g2 (w.group_lt self g hg) h, hg]
  exact hm

theorem static_refit_frame (be : Backend F) (context : Context) (self : Nat) (w : World F) :
    (buildOrRefit_staticInstances false be context self w).2.bvhMemory self
      = w.bvhMemory self := by
  unfold buildOrRefit_staticInstances
  split
  · rfl
  · rename_i g hg
    split
    · rfl
    · rename_i ig hig
      split
      · rfl
      · simp only [Context.pushActive]
        split
        · exact World.bvhMemory_of_groups w _ self rfl
        · split
          · exact World.bvhMemory_of_groups w _ self rfl
          · rename_i insts _
            obtain ⟨g2, f1, _, _, _, f5, _, _⟩ := uploadAndBuild_frame false be context self
              w.activeDevice g ig insts
              (World.call
                { groups := w.groups, activeDevice := context.cudaDeviceID, calls := w.calls }
                .deviceContextGetProperty)
            exact World.bvhMemory_of_set w _ self g g2 hg f1 (f5 rfl)

theorem motion_refit_frame [Zero F] [One F] (be : Backend F) (context : Context) (self : Nat)
    (w : World F) :
    (buildOrRefit_motionBlur false be context self w).2.bvhMemory self
      = w.bvhMemory self := by
  unfold buildOrRefit_motionBlur
  split
  · rfl
  · rename_i g hg
    split
    · rfl
    · rename_i ig hig
      split
      · rfl
      · simp only [Context.pushActive]
        split
        · exact World.bvhMemory_of_groups w _ self rfl
        · split
          · exact World.bvhMemory_of_groups w _ self rfl
          · split
            · exact World.bvhMemory_of_groups w _ self rfl
            · rename_i mts _
              obtain ⟨m1, _⟩ := motionInstances_frame be context
                { ig with motionTransformsBuffer := mts } 0 ig.children
                ((World.call
                  { groups := w.groups, activeDevice := context.cudaDeviceID, calls := w.calls }
                  .deviceContextGetProperty).setGroup self
                  { g with instanceGroup := some { ig with motionTransformsBuffer := mts } })
              simp only [World.groups_setGroup, World.groups_call] at m1
              split
              · rename_i e w2 hm
                simp only [hm] at m1
                exact World.bvhMemory_of_set w w2 self g _ hg m1 rfl
              · rename_i insts w2 hm
                simp only [hm] at m1
                obtain ⟨g2, f1, _, _, _, f5, _, _⟩ := uploadAndBuild_frame false be context self
                  w.activeDevice
                  { g with instanceGroup := some { ig with motionTransformsBuffer := mts } }
                  { ig with motionTransformsBuffer := mts } insts w2
                rw [m1, List.set_set] at f1
                exact World.bvhMemory_of_set w _ self g g2 hg f1 (f5 rfl)

theorem refitAccel_frame [Zero F] [One F] (be : Backend F) (context : Context) (self : Nat)
    (w : World F) :
    (refitAccel be context self w).2.bvhMemory self = w.bvhMemory self := by
  unfold refitAccel
  split
  · rfl
  · split
    · rfl
    · split
      · exact static_refit_frame be context self w
      · exact motion_refit_frame be context self w

/-! ## The instance array and the motion-transform buffer -/

/-- C7: static path (build or refit, time-step-1 transforms absent).  For a group that passes the
precondition check, has its time-step-0 transforms, N children within the backend limit, all set
and built: the instance array uploaded to `optixInstanceBuffer` has N entries, it is the array
handed to the backend in the sizing call with `numInstances` = N, and for every slot i entry i has
`sbtOffset` = ray-type count times child i's SBT offset, visibility mask 255 and the handle of
child i as its traversable handle. -/
theorem static_instance_array (FULL_REBUILD : Bool) (be : Backend F) (context : Context)
    (self : Nat) (w : World F) (g : Group F) (ig : InstanceGroup F) (limit : Nat)
    (t0 : Nat → affine3f F)
    (hg : w.group self = some g) (hig : g.instanceGroup = some ig)
    (hpre : preconditionHolds FULL_REBUILD g = true)
    (hlimit : be.maxInstancesPerIAS = some limit) (hcount : ig.children.length ≤ limit)
    (ht1 : ig.transforms1 = none) (ht0 : ig.transforms0 = some t0)
    (hch : ∀ i (hi : i < ig.children.length), ∃ c cg, ig.children[i] = some c ∧
      w.group c = some cg ∧ cg.traversable ≠ 0) :
    ((buildOrRefit_staticInstances FULL_REBUILD be context self w).2.optixInstanceBuffer
        self).length = ig.children.length ∧
    BackendCall.accelComputeMemoryUsage (if FULL_REBUILD then .build else .update)
        ((buildOrRefit_staticInstances FULL_REBUILD be context self w).2.optixInstanceBuffer self)
        ig.children.length
      ∈ (buildOrRefit_staticInstances FULL_REBUILD be context self w).2.calls ∧
    ∀ i (hi : i < ig.children.length) c cg, ig.children[i] = some c → w.group c = some cg →
      ∃ oi, ((buildOrRefit_staticInstances FULL_REBUILD be context self w).2.optixInstanceBuffer
          self)[i]? = some oi ∧
        oi.sbtOffset = context.numRayTypes * cg.getSBTOffset ∧
        oi.visibilityMask = 255 ∧
        oi.traversableHandle = cg.traversable := by
  obtain ⟨h1, h2, h3, _, _⟩ := static_summary FULL_REBUILD be context self w g ig limit t0
    hg hig hpre hlimit hcount ht1 ht0 hch
  exact ⟨h1, h3, fun i hi c cg hc hcg => ⟨_, h2 i hi c cg hc hcg, rfl, rfl, rfl⟩⟩

/-- C7 (witness): full build of group 0 of `worldStatic`: two entries, entry 1 has `sbtOffset`
2 * 3, mask 255 and handle 7. -/
theorem static_instance_array_witness :
    ((buildOrRefit_staticInstances true backendOk context1 0 worldStatic).2.optixInstanceBuffer
        0).length = 2 ∧
    ∃ oi, ((buildOrRefit_staticInstances true backendOk context1 0 worldStatic).2.optixInstanceBuffer
        0)[1]? = some oi ∧
      oi.sbtOffset = 2 * 3 ∧ oi.visibilityMask = 255 ∧ oi.traversableHandle = 7 :=
  have h := static_instance_array true backendOk context1 0 worldStatic instanceGroupStatic
    { children := [some 1, some 1], transforms0 := some slotXfm, transforms1 := none,
      instanceIDs := none, optixInstanceBuffer := [], motionTransformsBuffer := [] } 16 slotXfm
    rfl rfl rfl rfl (by decide) rfl rfl
    (by
      intro i hi
      refine ⟨1, geomGroupBuilt, ?_, rfl, by decide⟩
      have hi2 : i < 2 := hi
      interval_cases i <;> rfl)
  ⟨h.1, h.2.2 1 (by decide) 1 geomGroupBuilt rfl rfl⟩

/-- C8: for a group that passes the precondition check, has its time-step-0 transforms and N
children within the backend limit, all set and built, the instance record of every slot i carries
`ids[i]` as instance ID when an explicit array `ids` was supplied and `i` when none was; on the
static path (time-step-1 transforms absent) and on the motion-blur path (time-step-1 transforms
present, pointer-to-handle conversion succeeding) alike. -/
theorem instance_ids [Zero F] [One F] (FULL_REBUILD : Bool) (be : Backend F)
    (context : Context) (self : Nat) (w : World F) (g : Group F) (ig : InstanceGroup F)
    (limit : Nat) (t0 : Nat → affine3f F)
    (hg : w.group self = some g) (hig : g.instanceGroup = some ig)
    (hpre : preconditionHolds FULL_REBUILD g = true)
    (hlimit : be.maxInstancesPerIAS = some limit) (hcount : ig.children.length ≤ limit)
    (ht0 : ig.transforms0 = some t0)
    (hch : ∀ i (hi : i < ig.children.length), ∃ c cg, ig.children[i] = some c ∧
      w.group c = some cg ∧ cg.traversable ≠ 0) :
    (ig.transforms1 = none → ∀ i, i < ig.children.length →
      ∃ oi, ((buildOrRefit_staticInstances FULL_REBUILD be context self w).2.optixInstanceBuffer
          self)[i]? = some oi ∧
        (∀ ids, ig.instanceIDs = some ids → oi.instanceId = ids i) ∧
        (ig.instanceIDs = none → oi.instanceId = i)) ∧
    (∀ t1, ig.transforms1 = some t1 →
      (∀ off, (be.convertPointerToTraversableHandle off).isSome = true) →
      ∀ i, i < ig.children.length →
      ∃ oi, ((buildOrRefit_motionBlur FULL_REBUILD be context self w).2.optixInstanceBuffer
          self)[i]? = some oi ∧
        (∀ ids, ig.instanceIDs = some ids → oi.instanceId = ids i) ∧
        (ig.instanceIDs = none → oi.instanceId = i)) := by
  constructor
  · intro ht1 i hi
    obtain ⟨_, h2, _⟩ := static_summary FULL_REBUILD be context self w g ig limit t0
      hg hig hpre hlimit hcount ht1 ht0 hch
    obtain ⟨c, cg, e1, e2, _⟩ := hch i hi
    refine ⟨_, h2 i hi c cg e1 e2, ?_, ?_⟩
    · intro ids hids
      simp [instanceIdOf, hids]
    · intro hids
      simp [instanceIdOf, hids]
  · intro t1 ht1 hconv i hi
    obtain ⟨_, h2, _⟩ := motion_summary FULL_REBUILD be context self w g ig limit t0 t1
      hg hig hpre hlimit hcount ht0 ht1 hconv hch
    obtain ⟨c, cg, e1, e2, _⟩ := hch i hi
    refine ⟨_, h2 i hi c cg e1 e2, ?_, ?_⟩
    · intro ids hids
      simp [instanceIdOf, hids]
    · intro hids
      simp [instanceIdOf, hids]

/-- C8 (witness): full build of group 0 of `worldMotion`, whose explicit IDs are `100 + i`:
the record of slot 1 carries 101. -/
theorem instance_ids_witness :
    ∃ oi, ((buildOrRefit_motionBlur true backendOk context1 0 worldMotion).2.optixInstanceBuffer
        0)[1]? = some oi ∧ oi.instanceId = 101 :=
  have h := (instance_ids true backendOk context1 0 worldMotion instanceGroupMotion
    { children := [some 1, some 1], transforms0 := some slotXfm,
      transforms1 := some (fun _ => identityXfm),
      instanceIDs := some (fun i => 100 + i), optixInstanceBuffer := [],
      motionTransformsBuffer := [] } 16 slotXfm
    rfl rfl rfl rfl (by decide) rfl
    (by
      intro i hi
      refine ⟨1, geomGroupBuilt, ?_, rfl, by decide⟩
      have hi2 : i < 2 := hi
      interval_cases i <;> rfl)).2 (fun _ => identityXfm) rfl (fun _ => rfl) 1 (by decide)
  match h with
  | ⟨oi, h1, h2, _⟩ => ⟨oi, h1, h2 (fun i => 100 + i) rfl⟩

/-- C9: motion-blur path (build or refit, both time-steps present).  For a group that passes
the precondition check and has N children within the backend limit, all set and built, with the
pointer-to-handle conversion succeeding: the motion-transform buffer holds N records, and record i
has the handle of child i as base, 2 keys, time range from 0 to 1, and as key-t matrix the
row-major 3x4 matrix of the slot's time-step-t transform.  On a full build with a backend whose
sizing, build and synchronisation succeed and whose build returns a non-zero handle, the call
returns normally and the group's handle is non-zero. -/
theorem motion_transform_buffer [Zero F] [One F] (FULL_REBUILD : Bool) (be : Backend F)
    (context : Context) (self : Nat) (w : World F) (g : Group F) (ig : InstanceGroup F)
    (limit : Nat) (t0 t1 : Nat → affine3f F)
    (hg : w.group self = some g) (hig : g.instanceGroup = some ig)
    (hpre : preconditionHolds FULL_REBUILD g = true)
    (hlimit : be.maxInstancesPerIAS = some limit) (hcount : ig.children.length ≤ limit)
    (ht0 : ig.transforms0 = some t0) (ht1 : ig.transforms1 = some t1)
    (hconv : ∀ off, (be.convertPointerToTraversableHandle off).isSome = true)
    (hch : ∀ i (hi : i < ig.children.length), ∃ c cg, ig.children[i] = some c ∧
      w.group c = some cg ∧ cg.traversable ≠ 0) :
    ((buildOrRefit_motionBlur FULL_REBUILD be context self w).2.motionTransformsBuffer
        self).length = ig.children.length ∧
    (∀ i (hi : i < ig.children.length) c cg, ig.children[i] = some c → w.group c = some cg →
      ∃ mt, ((buildOrRefit_motionBlur FULL_REBUILD be context self w).2.motionTransformsBuffer
          self)[i]? = some mt ∧
        mt.child = cg.traversable ∧
        mt.motionOptions.numKeys = 2 ∧
        mt.motionOptions.timeBegin = 0 ∧
        mt.motionOptions.timeEnd = 1 ∧
        mt.transform = [rowMajor3x4 (t0 i).entry, rowMajor3x4 (t1 i).entry]) ∧
    (FULL_REBUILD = true →
      (∀ insts, (be.accelComputeMemoryUsage .build insts).isSome = true) →
      (∀ insts t o, ∃ h, be.accelBuild .build insts t o = some h ∧ h ≠ 0) →
      be.deviceSynchronize = true →
      (buildOrRefit_motionBlur FULL_REBUILD be context self w).1 = .ok ∧
      (buildOrRefit_motionBlur FULL_REBUILD be context self w).2.traversable self ≠ 0) := by
  obtain ⟨_, _, h3, h4, _⟩ := motion_summary FULL_REBUILD be context self w g ig limit t0 t1
    hg hig hpre hlimit hcount ht0 ht1 hconv hch
  refine ⟨h3, fun i hi c cg hc hcg => ⟨_, h4 i hi c cg hc hcg, rfl, rfl, rfl, rfl, ?_⟩, ?_⟩
  · simp only [transformOf_eq_rowMajor]
  · intro hfull hsize hbuild hsync
    subst hfull
    have hpre2 := hpre
    simp only [preconditionHolds, if_true, Bool.and_eq_true, beq_iff_eq] at hpre2
    obtain ⟨g2, _, _, a1, _, a3, a4, _⟩ := buildAccel_ok be context self w g ig limit hg hig
      hpre2.1 hpre2.2 hlimit hcount (by simp [ht0]) hch hconv hsize hbuild hsync
    have hdisp : buildAccel be context self w
        = buildOrRefit_motionBlur true be context self w := by
      unfold buildAccel
      simp [hg, hig, ht1]
    rw [hdisp] at a1 a3
    have hpost := World.group_set_self w _ self g2 (w.group_lt self g hg) a3
    refine ⟨a1, ?_⟩
    simp [World.traversable, hpost, a4]

/-- C9 (witness): full build of group 0 of `worldMotion` on `backendOk`: two records, record 1
as stated, and a non-zero handle after a normal return. -/
theorem motion_transform_buffer_witness :
    ((buildOrRefit_motionBlur true backendOk context1 0 worldMotion).2.motionTransformsBuffer
        0).length = 2 ∧
    (∃ mt, ((buildOrRefit_motionBlur true backendOk context1 0 worldMotion).2.motionTransformsBuffer
          0)[1]? = some mt ∧
        mt.child = 7 ∧ mt.motionOptions.numKeys = 2 ∧ mt.motionOptions.timeBegin = 0 ∧
        mt.motionOptions.timeEnd = 1 ∧
        mt.transform = [rowMajor3x4 (slotXfm 1).entry, rowMajor3x4 identityXfm.entry]) ∧
    (buildOrRefit_motionBlur true backendOk context1 0 worldMotion).1 = .ok ∧
    (buildOrRefit_motionBlur true backendOk context1 0 worldMotion).2.traversable 0 ≠ 0 :=
  have h := motion_transform_buffer true backendOk context1 0 worldMotion instanceGroupMotion
    { children := [some 1, some 1], transforms0 := some slotXfm,
      transforms1 := some (fun _ => identityXfm),
      instanceIDs := some (fun i => 100 + i), optixInstanceBuffer := [],
      motionTransformsBuffer := [] } 16 slotXfm (fun _ => identityXfm)
    rfl rfl rfl rfl (by decide) rfl rfl (fun _ => rfl)
    (by
      intro i hi
      refine ⟨1, geomGroupBuilt, ?_, rfl, by decide⟩
      have hi2 : i < 2 := hi
      interval_cases i <;> rfl)
  ⟨h.1, h.2.1 1 (by decide) 1 geomGroupBuilt rfl rfl,
    h.2.2 rfl (fun _ => rfl) (fun _ _ _ => ⟨42, rfl, by decide⟩) rfl⟩

/-- C10: `refitAccel`, and each refit path on its own, leaves the accel memory block of the
group as it was, whatever the backend answers and however the call ends.  A full build of an
EMPTY group with its time-step-0 transforms and its children within the limit, all set and
built (pointer-to-handle conversion succeeding), sets the accel memory size to exactly the
output size that the sizing query reports for the uploaded instance array. -/
theorem accel_memory_size [Zero F] [One F] (be : Backend F) (context : Context) (self : Nat)
    (w : World F) (g : Group F) (ig : InstanceGroup F)
    (hg : w.group self = some g) (hig : g.instanceGroup = some ig) :
    ((refitAccel be context self w).2.bvhMemory self = g.bvhMemory ∧
      (buildOrRefit_staticInstances false be context self w).2.bvhMemory self = g.bvhMemory ∧
      (buildOrRefit_motionBlur false be context self w).2.bvhMemory self = g.bvhMemory) ∧
    (∀ limit sizes,
      g.traversable = 0 → g.bvhMemory.empty = true →
      be.maxInstancesPerIAS = some limit → ig.children.length ≤ limit →
      ig.transforms0.isSome = true →
      (∀ i (hi : i < ig.children.length), ∃ c cg, ig.children[i] = some c ∧
        w.group c = some cg ∧ cg.traversable ≠ 0) →
      (∀ off, (be.convertPointerToTraversableHandle off).isSome = true) →
      be.accelComputeMemoryUsage .build ((buildAccel be context self w).2.optixInstanceBuffer self)
        = some sizes →
      ((buildAccel be context self w).2.bvhMemory self).size = sizes.outputSizeInBytes) := by
  have hw : w.bvhMemory self = g.bvhMemory := by
    simp [World.bvhMemory, hg]
  refine ⟨⟨?_, ?_, ?_⟩, ?_⟩
  · rw [refitAccel_frame, hw]
  · rw [static_refit_frame, hw]
  · rw [motion_refit_frame, hw]
  · intro limit sizes hhandle hmem hlimit hcount ht0 hch hconv hs
    have hpre : preconditionHolds true g = true := by
      simp [preconditionHolds, hhandle, hmem]
    obtain ⟨t0, ht0⟩ := Option.isSome_iff_exists.mp ht0
    obtain ht1 | ⟨t1, ht1⟩ : ig.transforms1 = none ∨ ∃ t1, ig.transforms1 = some t1 := by
      cases ig.transforms1 <;> simp
    · have hdisp : buildAccel be context self w
          = buildOrRefit_staticInstances true be context self w := by
        unfold buildAccel
        simp [hg, hig, ht1]
      rw [hdisp] at hs ⊢
      obtain ⟨_, _, _, _, h5⟩ := static_summary true be context self w g ig limit t0
        hg hig hpre hlimit hcount ht1 ht0 hch
      exact h5 rfl sizes hs
    · have hdisp : buildAccel be context self w
          = buildOrRefit_motionBlur true be context self w := by
        unfold buildAccel
        simp [hg, hig, ht1]
      rw [hdisp] at hs ⊢
      obtain ⟨_, _, _, _, _, _, h7⟩ := motion_summary true be context self w g ig limit t0 t1
        hg hig hpre hlimit hcount ht0 ht1 hconv hch
      exact h7 rfl sizes hs

/-- C10 (witness): refit of the built group 0 of `worldBuilt` returns normally and keeps its
300 bytes although the sizing query reports 256; the full build of group 0 of `worldStatic`
allocates the 256 bytes the sizing query reports. -/
theorem accel_memory_size_witness :
    (refitAccel backendOk context1 0 worldBuilt).1 = .ok ∧
    (refitAccel backendOk context1 0 worldBuilt).2.bvhMemory 0 = ⟨300⟩ ∧
    ((buildAccel backendOk context1 0 worldStatic).2.bvhMemory 0).size = 256 :=
  ⟨by decide,
    (accel_memory_size backendOk context1 0 worldBuilt instanceGroupBuilt
      { children := [some 1, some 1], transforms0 := some slotXfm, transforms1 := none,
        instanceIDs := none, optixInstanceBuffer := [], motionTransformsBuffer := [] }
      rfl rfl).1.1,
    (accel_memory_size backendOk context1 0 worldStatic instanceGroupStatic
      { children := [some 1, some 1], transforms0 := some slotXfm, transforms1 := none,
        instanceIDs := none, optixInstanceBuffer := [], motionTransformsBuffer := [] }
      rfl rfl).2 16 ⟨256, 32, 16⟩ rfl rfl rfl (by decide) rfl
      (by
        intro i hi
        refine ⟨1, geomGroupBuilt, ?_, rfl, by decide⟩
        have hi2 : i < 2 := hi
        interval_cases i <;> rfl)
      (fun _ => rfl) (by decide)⟩

/-! ## Which path a build or refit takes -/

theorem static_fields_frame (FULL_REBUILD : Bool) (be : Backend F) (context : Context)
    (self : Nat) (w : World F) (g : Group F) (ig : InstanceGroup F)
    (hg : w.group self = some g) (hig : g.instanceGroup = some ig) :
    ∃ ig2, (buildOrRefit_staticInstances FULL_REBUILD be context self w).2.instanceGroup self
        = some ig2 ∧
      ig2.children = ig.children ∧ ig2.transforms0 = ig.transforms0 ∧
      ig2.transforms1 = ig.transforms1 ∧ ig2.instanceIDs = ig.instanceIDs := by
  have hlt := w.group_lt self g hg
  have hsame : ∀ v : World F, v.groups = w.groups →
      ∃ ig2, v.instanceGroup self = some ig2 ∧
        ig2.children = ig.children ∧ ig2.transforms0 = ig.transforms0 ∧
        ig2.transforms1 = ig.transforms1 ∧ ig2.instanceIDs = ig.instanceIDs := by
    intro v hv
    refine ⟨ig, ?_, rfl, rfl, rfl, rfl⟩
    unfold World.instanceGroup
    rw [World.group_of_groups w v hv, hg]
    exact hig
  unfold buildOrRefit_staticInstances
  simp only [hg, hig]
  split
  · exact hsame w rfl
  · simp only [Context.pushActive]
    split
    · exact hsame _ rfl
    · split
      · exact hsame _ rfl
      · rename_i insts _
        obtain ⟨g2, f1, _, _, f4, _⟩ := uploadAndBuild_frame FULL_REBUILD be context self
          w.activeDevice g ig insts
          (World.call
            { groups := w.groups, activeDevice := context.cudaDeviceID, calls := w.calls }
            .deviceContextGetProperty)
        refine ⟨{ ig with optixInstanceBuffer := insts }, ?_, rfl, rfl, rfl, rfl⟩
        unfold World.instanceGroup
        rw [World.group_set_self w _ self g2 hlt f1]
        exact f4

theorem motion_fields_frame [Zero F] [One F] (FULL_REBUILD : Bool) (be : Backend F)
    (context : Context) (self : Nat) (w : World F) (g : Group F) (ig : InstanceGroup F)
    (hg : w.group self = some g) (hig : g.instanceGroup = some ig) :
    ∃ ig2, (buildOrRefit_motionBlur FULL_REBUILD be context self w).2.instanceGroup self
        = some ig2 ∧
      ig2.children = ig.children ∧ ig2.transforms0 = ig.transforms0 ∧
      ig2.transforms1 = ig.transforms1 ∧ ig2.instanceIDs = ig.instanceIDs := by
  have hlt := w.group_lt self g hg
  have hsame : ∀ v : World F, v.groups = w.groups →
      ∃ ig2, v.instanceGroup self = some ig2 ∧
        ig2.children = ig.children ∧ ig2.transforms0 = ig.transforms0 ∧
        ig2.transforms1 = ig.transforms1 ∧ ig2.instanceIDs = ig.instanceIDs := by
    intro v hv
    refine ⟨ig, ?_, rfl, rfl, rfl, rfl⟩
    unfold World.instanceGroup
    rw [World.group_of_groups w v hv, hg]
    exact hig
  unfold buildOrRefit_motionBlur
  simp only [hg, hig]
  split
  · exact hsame w rfl
  · simp only [Context.pushActive]
    split
    · exact hsame _ rfl
    · split
      · exact hsame _ rfl
      · split
        · exact hsame _ rfl
        · rename_i mts _
          obtain ⟨m1, _⟩ := motionInstances_frame be context
            { ig with motionTransformsBuffer := mts } 0 ig.children
            ((World.call
              { groups := w.groups, activeDevice := context.cudaDeviceID, calls := w.calls }
              .deviceContextGetProperty).setGroup self
              { g with instanceGroup := some { ig with motionTransformsBuffer := mts } })
          simp only [World.groups_setGroup, World.groups_call] at m1
          split
          · rename_i e w2 hm
            simp only [hm] at m1
            refine ⟨{ ig with motionTransformsBuffer := mts }, ?_, rfl, rfl, rfl, rfl⟩
            unfold World.instanceGroup
            rw [World.group_set_self w w2 self _ hlt m1]
          · rename_i insts w2 hm
            simp only [hm] at m1
            obtain ⟨g2, f1, _, _, f4, _⟩ := uploadAndBuild_frame FULL_REBUILD be context self
              w.activeDevice
              { g with instanceGroup := some { ig with motionTransformsBuffer := mts } }
              { ig with motionTransformsBuffer := mts } insts w2
            rw [m1, List.set_set] at f1
            refine ⟨{ ig with motionTransformsBuffer := mts, optixInstanceBuffer := insts },
              ?_, rfl, rfl, rfl, rfl⟩
            unfold World.instanceGroup
            rw [World.group_set_self w _ self g2 hlt f1]
            exact f4

theorem World.instanceGroup_eq_some (v : World F) (self : Nat) (ig : InstanceGroup F)
    (h : v.instanceGroup self = some ig) :
    ∃ g, v.group self = some g ∧ g.instanceGroup = some ig := by
  unfold World.instanceGroup at h
  cases hg : v.group self with
  | none => simp [hg] at h
  | some g =>
    rw [hg] at h
    exact ⟨g, rfl, h⟩

theorem accel_dispatch [Zero F] [One F] (be : Backend F) (context : Context) (self : Nat)
    (v : World F) (ig : InstanceGroup F) (h : v.instanceGroup self = some ig) :
    (ig.transforms1 = none →
      buildAccel be context self v = buildOrRefit_staticInstances true be context self v ∧
      refitAccel be context self v = buildOrRefit_staticInstances false be context self v) ∧
    (ig.transforms1.isSome = true →
      buildAccel be context self v = buildOrRefit_motionBlur true be context self v ∧
      refitAccel be context self v = buildOrRefit_motionBlur false be context self v) := by
  obtain ⟨g, hg, hig⟩ := v.instanceGroup_eq_some self ig h
  constructor
  · intro ht
    constructor
    · unfold buildAccel
      simp [hg, hig, ht]
    · unfold refitAccel
      simp [hg, hig, ht]
  · intro ht
    have hn : ig.transforms1.isNone = false := by
      cases h1 : ig.transforms1 <;> simp_all
    constructor
    · unfold buildAccel
      simp [hg, hig, hn]
    · unfold refitAccel
      simp [hg, hig, hn]

/-- C14: `buildAccel` and `refitAccel` of an instance group both run the static path when the
time-step-1 transform array is absent and both run the motion-blur path when it is present.  A
build, however it ends, leaves the transform arrays of the group as they were, so a `refitAccel`
that follows it (with any backend and context) runs the same path as the build did. -/
theorem motion_blur_dispatch [Zero F] [One F] (be : Backend F) (context : Context)
    (self : Nat) (w : World F) (g : Group F) (ig : InstanceGroup F)
    (hg : w.group self = some g) (hig : g.instanceGroup = some ig) :
    (ig.transforms1 = none →
      buildAccel be context self w = buildOrRefit_staticInstances true be context self w ∧
      refitAccel be context self w = buildOrRefit_staticInstances false be context self w ∧
      ∀ (be2 : Backend F) (context2 : Context),
        refitAccel be2 context2 self (buildAccel be context self w).2
          = buildOrRefit_staticInstances false be2 context2 self
              (buildAccel be context self w).2) ∧
    (ig.transforms1.isSome = true →
      buildAccel be context self w = buildOrRefit_motionBlur true be context self w ∧
      refitAccel be context self w = buildOrRefit_motionBlur false be context self w ∧
      ∀ (be2 : Backend F) (context2 : Context),
        refitAccel be2 context2 self (buildAccel be context self w).2
          = buildOrRefit_motionBlur false be2 context2 self
              (buildAccel be context self w).2) := by
  have hw : w.instanceGroup self = some ig := by
    simp [World.instanceGroup, hg, hig]
  obtain ⟨d1, d2⟩ := accel_dispatch be context self w ig hw
  constructor
  · intro ht
    obtain ⟨b1, b2⟩ := d1 ht
    refine ⟨b1, b2, ?_⟩
    intro be2 context2
    obtain ⟨ig2, f1, _, _, f4, _⟩ := static_fields_frame true be context self w g ig hg hig
    rw [b1]
    exact ((accel_dispatch be2 context2 self _ ig2 f1).1 (by rw [f4, ht])).2
  · intro ht
    obtain ⟨b1, b2⟩ := d2 ht
    refine ⟨b1, b2, ?_⟩
    intro be2 context2
    obtain ⟨ig2, f1, _, _, f4, _⟩ := motion_fields_frame true be context self w g ig hg hig
    rw [b1]
    exact ((accel_dispatch be2 context2 self _ ig2 f1).2 (by rw [f4, ht])).2

/-- C14 (witness): group 0 of `worldMotion` has time-step-1 transforms: build and refit are the
motion-blur path, group 0 of `worldStatic` has none: build and refit are the static path. -/
theorem motion_blur_dispatch_witness :
    (buildAccel backendOk context1 0 worldMotion
        = buildOrRefit_motionBlur true backendOk context1 0 worldMotion ∧
      refitAccel backendOk context1 0 (buildAccel backendOk context1 0 worldMotion).2
        = buildOrRefit_motionBlur false backendOk context1 0
            (buildAccel backendOk context1 0 worldMotion).2) ∧
    (buildAccel backendOk context1 0 worldStatic
        = buildOrRefit_staticInstances true backendOk context1 0 worldStatic ∧
      refitAccel backendOk context1 0 (buildAccel backendOk context1 0 worldStatic).2
        = buildOrRefit_staticInstances false backendOk context1 0
            (buildAccel backendOk context1 0 worldStatic).2) :=
  have hm := (motion_blur_dispatch backendOk context1 0 worldMotion instanceGroupMotion
    { children := [some 1, some 1], transforms0 := some slotXfm,
      transforms1 := some (fun _ => identityXfm),
      instanceIDs := some (fun i => 100 + i), optixInstanceBuffer := [],
      motionTransformsBuffer := [] } rfl rfl).2 rfl
  have hs := (motion_blur_dispatch backendOk context1 0 worldStatic instanceGroupStatic
    { children := [some 1, some 1], transforms0 := some slotXfm, transforms1 := none,
      instanceIDs := none, optixInstanceBuffer := [], motionTransformsBuffer := [] }
    rfl rfl).1 rfl
  ⟨⟨hm.1, hm.2.2 backendOk context1⟩, ⟨hs.1, hs.2.2 backendOk context1⟩⟩

/-! ## The transform of a static instance record -/

/-- C15: static path (build or refit).  For a group that passes the precondition check, has its
time-step-0 transforms `t0` and N children within the backend limit, all set and built, the
instance record of every slot i has a transform of 12 entries in which, for every row r, entry
4r+0 is component r of `vx`, entry 4r+1 component r of `vy`, entry 4r+2 component r of `vz` and
entry 4r+3 component r of the translation `p` of `t0 i`; it is the row-major 3x4 matrix of
`t0 i`, and when `t0 i` is the identity transform it is the 3x4 identity matrix. -/
theorem static_transform_row_major [Zero F] [One F] (FULL_REBUILD : Bool) (be : Backend F)
    (context : Context) (self : Nat) (w : World F) (g : Group F) (ig : InstanceGroup F)
    (limit : Nat) (t0 : Nat → affine3f F)
    (hg : w.group self = some g) (hig : g.instanceGroup = some ig)
    (hpre : preconditionHolds FULL_REBUILD g = true)
    (hlimit : be.maxInstancesPerIAS = some limit) (hcount : ig.children.length ≤ limit)
    (ht1 : ig.transforms1 = none) (ht0 : ig.transforms0 = some t0)
    (hch : ∀ i (hi : i < ig.children.length), ∃ c cg, ig.children[i] = some c ∧
      w.group c = some cg ∧ cg.traversable ≠ 0) :
    ∀ i, i < ig.children.length →
      ∃ oi, ((buildOrRefit_staticInstances FULL_REBUILD be context self w).2.optixInstanceBuffer
          self)[i]? = some oi ∧
        oi.transform.length = 12 ∧
        (∀ r : Fin 3,
          oi.transform[4 * r.val + 0]? = some ((t0 i).l.vx.component r) ∧
          oi.transform[4 * r.val + 1]? = some ((t0 i).l.vy.component r) ∧
          oi.transform[4 * r.val + 2]? = some ((t0 i).l.vz.component r) ∧
          oi.transform[4 * r.val + 3]? = some ((t0 i).p.component r)) ∧
        oi.transform = rowMajor3x4 (t0 i).entry ∧
        (t0 i = affine3f.identity →
          oi.transform = [1, 0, 0, 0,  0, 1, 0, 0,  0, 0, 1, 0]) := by
  intro i hi
  obtain ⟨_, h2, _⟩ := static_summary FULL_REBUILD be context self w g ig limit t0
    hg hig hpre hlimit hcount ht1 ht0 hch
  obtain ⟨c, cg, e1, e2, _⟩ := hch i hi
  refine ⟨_, h2 i hi c cg e1 e2, rfl, ?_, transformOf_eq_rowMajor (t0 i), ?_⟩
  · intro r
    fin_cases r <;> simp [transformOf, vec3f.component]
  · intro hid
    simp only [hid]
    rfl

/-- C15 (witness): full build of group 0 of `worldStatic`, whose slot 1 has the transform with
columns (1,2,3), (4,5,6), (7,8,9) and translation (10,20,30). -/
theorem static_transform_row_major_witness :
    ∃ oi, ((buildOrRefit_staticInstances true backendOk context1 0 worldStatic).2.optixInstanceBuffer
        0)[1]? = some oi ∧
      oi.transform = [1, 4, 7, 10,  2, 5, 8, 20,  3, 6, 9, 30] :=
  have h := static_transform_row_major true backendOk context1 0 worldStatic instanceGroupStatic
    { children := [some 1, some 1], transforms0 := some slotXfm, transforms1 := none,
      instanceIDs := none, optixInstanceBuffer := [], motionTransformsBuffer := [] } 16 slotXfm
    rfl rfl rfl rfl (by decide) rfl rfl
    (by
      intro i hi
      refine ⟨1, geomGroupBuilt, ?_, rfl, by decide⟩
      have hi2 : i < 2 := hi
      interval_cases i <;> rfl)
    1 (by decide)
  match h with
  | ⟨oi, h1, _, _, h4, _⟩ => ⟨oi, h1, by rw [h4]; decide⟩

/-! ## The instance array of the motion-blur path -/

theorem motionInstances_calls [Zero F] [One F] (be : Backend F) (context : Context)
    (ig : InstanceGroup F) (k : Nat) (l : List (Option Nat)) (w w2 : World F)
    (ois : List (OptixInstance F))
    (h : motionInstances be context ig k l w = (.ok ois, w2)) :
    w2.calls = w.calls ++ (List.range' k l.length).map
      (fun j => BackendCall.convertPointerToTraversableHandle
        (j * be.sizeofOptixMatrixMotionTransform)) := by
  induction l generalizing k w w2 ois with
  | nil =>
    simp [motionInstances] at h
    obtain ⟨_, h2⟩ := h
    subst h2
    simp
  | cons child rest ih =>
    unfold motionInstances at h
    split at h
    · simp at h
    · simp only at h
      split at h
      · simp at h
      · split at h
        · simp at h
        · split at h
          · simp at h
          · split at h
            · simp at h
            · rename_i ois2 w3 heq
              simp only [Prod.mk.injEq, Except.ok.injEq] at h
              obtain ⟨_, h2⟩ := h
              subst h2
              rw [ih (k + 1) _ w3 ois2 heq]
              simp [List.range']

theorem uploadAndBuild_calls (FULL_REBUILD : Bool) (be : Backend F) (context : Context)
    (self : Nat) (oldActive : Int) (g : Group F) (ig : InstanceGroup F)
    (optixInstances : List (OptixInstance F)) (w : World F) (c : BackendCall F)
    (hc : c ∈ w.calls) :
    c ∈ (uploadAndBuild FULL_REBUILD be context self oldActive g ig optixInstances w).2.calls := by
  unfold uploadAndBuild
  simp only
  split
  · simp [hc]
  · split
    · simp [hc]
    · split
      · simp [Context.popActive, hc]
      · simp [hc]

/-- C16: motion-blur path (build or refit).  For a group that passes the precondition check, has
both transform arrays and N children within the backend limit, all set and built, with the
pointer-to-handle conversion succeeding: the instance record of every slot i carries the 3x4
identity matrix as transform and the handle of child i itself as traversable handle; the
conversion is called for byte offset i * sizeof(record) of every slot; and the uploaded instance
array is the same whatever handles the conversion returns and whatever the two transform arrays
hold. -/
theorem motion_instance_array [Zero F] [One F] (FULL_REBUILD : Bool) (be : Backend F)
    (context : Context) (self : Nat) (w : World F) (g : Group F) (ig : InstanceGroup F)
    (limit : Nat) (t0 t1 : Nat → affine3f F)
    (hg : w.group self = some g) (hig : g.instanceGroup = some ig)
    (hpre : preconditionHolds FULL_REBUILD g = true)
    (hlimit : be.maxInstancesPerIAS = some limit) (hcount : ig.children.length ≤ limit)
    (ht0 : ig.transforms0 = some t0) (ht1 : ig.transforms1 = some t1)
    (hconv : ∀ off, (be.convertPointerToTraversableHandle off).isSome = true)
    (hch : ∀ i (hi : i < ig.children.length), ∃ c cg, ig.children[i] = some c ∧
      w.group c = some cg ∧ cg.traversable ≠ 0) :
    (∀ i (hi : i < ig.children.length) c cg, ig.children[i] = some c → w.group c = some cg →
      ∃ oi, ((buildOrRefit_motionBlur FULL_REBUILD be context self w).2.optixInstanceBuffer
          self)[i]? = some oi ∧
        oi.transform = [1, 0, 0, 0,  0, 1, 0, 0,  0, 0, 1, 0] ∧
        oi.traversableHandle = cg.traversable) ∧
    (∀ i, i < ig.children.length →
      BackendCall.convertPointerToTraversableHandle (i * be.sizeofOptixMatrixMotionTransform)
        ∈ (buildOrRefit_motionBlur FULL_REBUILD be context self w).2.calls) ∧
    (∀ (convert2 : Nat → Option Nat) (u0 u1 : Nat → affine3f F),
      (∀ off, (convert2 off).isSome = true) →
      (buildOrRefit_motionBlur FULL_REBUILD
          { be with convertPointerToTraversableHandle := convert2 } context self
          (w.setGroup self
            { g with instanceGroup :=
                        some { ig with transforms0 := some u0, transforms1 := some u1 } })).2.optixInstanceBuffer
          self
        = (buildOrRefit_motionBlur FULL_REBUILD be context self w).2.optixInstanceBuffer self) := by
  obtain ⟨h1, h2, _⟩ := motion_summary FULL_REBUILD be context self w g ig limit t0 t1
    hg hig hpre hlimit hcount ht0 ht1 hconv hch
  refine ⟨fun i hi c cg hc hcg => ⟨_, h2 i hi c cg hc hcg, rfl, rfl⟩, ?_, ?_⟩
  · intro i hi
    obtain ⟨mts, insts, w2, _, hm, heq⟩ := motion_reach FULL_REBUILD be context self w g ig
      limit t0 t1 hg hig hpre hlimit hcount ht0 ht1 hconv hch
    rw [heq]
    apply uploadAndBuild_calls
    rw [motionInstances_calls be context _ 0 ig.children _ w2 insts hm]
    simp only [List.mem_append, List.mem_map, List.mem_range'_1]
    right
    exact ⟨i, ⟨by omega, by simpa using hi⟩, rfl⟩
  · intro convert2 u0 u1 hconv2
    have hlt := w.group_lt self g hg
    have hg2 : (w.setGroup self
        { g with instanceGroup := some { ig with transforms0 := some u0, transforms1 := some u1 } }).group self
          = some { g with instanceGroup := some { ig with transforms0 := some u0, transforms1 := some u1 } } :=
      World.group_set_self w _ self _ hlt rfl
    have hfield : ∀ c cg, w.group c = some cg → ∃ cg2,
        (w.setGroup self
          { g with instanceGroup := some { ig with transforms0 := some u0, transforms1 := some u1 } }).group c = some cg2 ∧
        cg2.traversable = cg.traversable ∧ cg2.getSBTOffset = cg.getSBTOffset :=
      fun c cg hcg => World.group_set_fields w _ self g
        { g with instanceGroup := some { ig with transforms0 := some u0, transforms1 := some u1 } } hg rfl rfl rfl c cg hcg
    have hch2 : ∀ i (hi : i < ig.children.length), ∃ c cg, ig.children[i] = some c ∧
        (w.setGroup self
          { g with instanceGroup := some { ig with transforms0 := some u0, transforms1 := some u1 } }).group c = some cg ∧
        cg.traversable ≠ 0 := by
      intro i hi
      obtain ⟨c, cg, e1, e2, e3⟩ := hch i hi
      obtain ⟨cg2, f1, f2, _⟩ := hfield c cg e2
      exact ⟨c, cg2, e1, f1, by rw [f2]; exact e3⟩
    obtain ⟨k1, k2, _⟩ := motion_summary FULL_REBUILD
      { be with convertPointerToTraversableHandle := convert2 } context self
      (w.setGroup self
        { g with instanceGroup := some { ig with transforms0 := some u0, transforms1 := some u1 } })
      { g with instanceGroup := some { ig with transforms0 := some u0, transforms1 := some u1 } }
      { ig with transforms0 := some u0, transforms1 := some u1 } limit u0 u1
      hg2 rfl hpre hlimit hcount rfl rfl hconv2 hch2
    apply List.ext_getElem?
    intro i
    by_cases hi : i < ig.children.length
    · obtain ⟨c, cg, e1, e2, _⟩ := hch i hi
      obtain ⟨cg2, f1, f2, f3⟩ := hfield c cg e2
      rw [h2 i hi c cg e1 e2, k2 i hi c cg2 e1 f1, f2, f3]
      rfl
    · have k1b : ((buildOrRefit_motionBlur FULL_REBUILD
          { be with convertPointerToTraversableHandle := convert2 } context self
          (w.setGroup self
            { g with instanceGroup := some { ig with transforms0 := some u0, transforms1 := some u1 } })).2.optixInstanceBuffer
          self).length = ig.children.length := k1
      rw [List.getElem?_eq_none (by rw [k1b]; omega),
        List.getElem?_eq_none (by rw [h1]; omega)]

/-- C16 (witness): full build of group 0 of `worldMotion`: the record of slot 1 has the identity
matrix and handle 7, the handle of its child, although the conversion returned 1128 for it. -/
theorem motion_instance_array_witness :
    (∃ oi, ((buildOrRefit_motionBlur true backendOk context1 0 worldMotion).2.optixInstanceBuffer
          0)[1]? = some oi ∧
        oi.transform = [1, 0, 0, 0,  0, 1, 0, 0,  0, 0, 1, 0] ∧
        oi.traversableHandle = 7) ∧
    BackendCall.convertPointerToTraversableHandle (1 * 128)
      ∈ (buildOrRefit_motionBlur true backendOk context1 0 worldMotion).2.calls ∧
    backendOk.convertPointerToTraversableHandle (1 * 128) = some 1128 :=
  have h := motion_instance_array true backendOk context1 0 worldMotion instanceGroupMotion
    { children := [some 1, some 1], transforms0 := some slotXfm,
      transforms1 := some (fun _ => identityXfm),
      instanceIDs := some (fun i => 100 + i), optixInstanceBuffer := [],
      motionTransformsBuffer := [] } 16 slotXfm (fun _ => identityXfm)
    rfl rfl rfl rfl (by decide) rfl rfl (fun _ => rfl)
    (by
      intro i hi
      refine ⟨1, geomGroupBuilt, ?_, rfl, by decide⟩
      have hi2 : i < 2 := hi
      interval_cases i <;> rfl)
  ⟨h.1 1 (by decide) 1 geomGroupBuilt rfl rfl, h.2.1 1 (by decide), rfl⟩

/-! ## The slot index of instanceGroupSetChild -/

/-- C11 (the code at the failing input): group 0 of `worldFresh` has one slot.  With the valid
group IDs 0 and 1, slot index 1 and slot index -1 reach the unchecked access
`ig->children[childNo]`, whose behaviour is undefined; no check rejects them.  An invalid group ID
or child group ID, by contrast, is rejected by a failed assertion. -/
theorem instanceGroupSetChild_slot_unchecked :
    worldFresh.children 0 = [none] ∧
    (instanceGroupSetChild 0 1 1 worldFresh).1 = .fail .undefined ∧
    (instanceGroupSetChild 0 (-1) 1 worldFresh).1 = .fail .undefined ∧
    (instanceGroupSetChild 5 0 1 worldFresh).1 = .fail .assertion ∧
    (instanceGroupSetChild 0 0 5 worldFresh).1 = .fail .assertion := by
  decide

/-! ## Unset and unbuilt children -/

theorem forChildren_error {α : Type} (body : Nat → Option Nat → Except Failure α)
    (k : Nat) (l : List (Option Nat)) (e : Failure)
    (hall : ∀ i (hi : i < l.length),
      (∃ a, body (k + i) l[i] = .ok a) ∨ body (k + i) l[i] = .error e)
    (hbad : ∃ i, ∃ hi : i < l.length, body (k + i) l[i] = .error e) :
    forChildren body k l = .error e := by
  induction l generalizing k with
  | nil =>
    obtain ⟨i, hi, _⟩ := hbad
    simp at hi
  | cons child rest ih =>
    unfold forChildren
    rcases hall 0 (by simp) with ⟨a, ha⟩ | he
    · simp only [Nat.add_zero, List.getElem_cons_zero] at ha
      rw [ha]
      simp only
      have hrest : forChildren body (k + 1) rest = .error e := by
        apply ih
        · intro i hi
          have := hall (i + 1) (by simpa using hi)
          have hk : k + (i + 1) = k + 1 + i := by omega
          rw [hk] at this
          simpa using this
        · obtain ⟨i, hi, hb⟩ := hbad
          cases i with
          | zero =>
            simp only [Nat.add_zero, List.getElem_cons_zero] at hb
            rw [ha] at hb
            cases hb
          | succ i =>
            have hk : k + (i + 1) = k + 1 + i := by omega
            rw [hk] at hb
            exact ⟨i, by simpa using hi, by simpa using hb⟩
      rw [hrest]
    · simp only [Nat.add_zero, List.getElem_cons_zero] at he
      rw [he]

theorem staticInstance_cases (context : Context) (w : World F) (ig : InstanceGroup F)
    (childID : Nat) (child : Option Nat)
    (ht0 : ig.transforms0.isSome = true)
    (hlive : ∀ c, child = some c → (w.group c).isSome = true) :
    ((∃ a, staticInstance context w ig childID child = .ok a) ∨
      staticInstance context w ig childID child = .error .assertion) ∧
    ((child = none ∨ ∃ c cg, child = some c ∧ w.group c = some cg ∧ cg.traversable = 0) →
      staticInstance context w ig childID child = .error .assertion) := by
  obtain ⟨t0, ht0⟩ := Option.isSome_iff_exists.mp ht0
  cases child with
  | none => simp [staticInstance]
  | some c =>
    obtain ⟨cg, hcg⟩ := Option.isSome_iff_exists.mp (hlive c rfl)
    by_cases ht1 : ig.transforms1.isSome = true
    · simp [staticInstance, ht1]
    · by_cases hz : cg.traversable = 0
      · simp [staticInstance, ht1, ht0, hcg, hz]
      · have hne : ∀ cg2, w.group c = some cg2 → ¬ cg2.traversable = 0 := by
          intro cg2 h2
          rw [hcg] at h2
          cases h2
          exact hz
        constructor
        · left
          simp [staticInstance, ht1, ht0, hcg, hz]
        · intro hb
          rcases hb with hb | ⟨c2, cg2, h1, h2, h3⟩
          · cases hb
          · cases h1
            exact absurd h3 (hne cg2 h2)

theorem motionTransform_cases [Zero F] [One F] (w : World F) (ig : InstanceGroup F)
    (childID : Nat) (child : Option Nat)
    (ht0 : ig.transforms0.isSome = true) (ht1 : ig.transforms1.isSome = true)
    (hlive : ∀ c, child = some c → (w.group c).isSome = true) :
    ((∃ a, motionTransform w ig childID child = .ok a) ∨
      motionTransform w ig childID child = .error .assertion) ∧
    (child = none → motionTransform w ig childID child = .error .assertion) := by
  obtain ⟨t0, ht0⟩ := Option.isSome_iff_exists.mp ht0
  obtain ⟨t1, ht1⟩ := Option.isSome_iff_exists.mp ht1
  cases child with
  | none => simp [motionTransform]
  | some c =>
    obtain ⟨cg, hcg⟩ := Option.isSome_iff_exists.mp (hlive c rfl)
    simp [motionTransform, ht0, ht1, hcg]

theorem motionInstances_calls_any [Zero F] [One F] (be : Backend F) (context : Context)
    (ig : InstanceGroup F) (k : Nat) (l : List (Option Nat)) (w : World F) :
    ∀ c ∈ (motionInstances be context ig k l w).2.calls,
      c ∈ w.calls ∨ ∃ off, c = BackendCall.convertPointerToTraversableHandle off := by
  induction l generalizing k w with
  | nil =>
    intro c hc
    left
    simpa [motionInstances] using hc
  | cons child rest ih =>
    have hstep : ∀ c ∈ (w.call (.convertPointerToTraversableHandle
        (k * be.sizeofOptixMatrixMotionTransform))).calls,
        c ∈ w.calls ∨ ∃ off, c = BackendCall.convertPointerToTraversableHandle off := by
      intro c hc
      simp only [World.calls_call, List.mem_append, List.mem_singleton] at hc
      rcases hc with hc | hc
      · exact Or.inl hc
      · exact Or.inr ⟨_, hc⟩
    unfold motionInstances
    split
    · intro c hc
      exact Or.inl hc
    · simp only
      split
      · exact hstep
      · split
        · exact hstep
        · split
          · exact hstep
          · have hrec := ih (k + 1)
              (w.call (.convertPointerToTraversableHandle (k * be.sizeofOptixMatrixMotionTransform)))
            split
            · rename_i e w2 heq
              rw [heq] at hrec
              intro c hc
              rcases hrec c hc with h1 | h1
              · exact hstep c h1
              · exact Or.inr h1
            · rename_i ois w2 heq
              rw [heq] at hrec
              intro c hc
              rcases hrec c hc with h1 | h1
              · exact hstep c h1
              · exact Or.inr h1

theorem motionInstances_not_ok [Zero F] [One F] (be : Backend F) (context : Context)
    (ig : InstanceGroup F) (k : Nat) (l : List (Option Nat)) (w : World F)
    (hbad : ∃ i, ∃ hi : i < l.length,
      l[i] = none ∨ ∃ c cg, l[i] = some c ∧ w.group c = some cg ∧ cg.traversable = 0)
    (ois : List (OptixInstance F)) :
    (motionInstances be context ig k l w).1 ≠ .ok ois := by
  intro h
  cases hm : motionInstances be context ig k l w with
  | mk r w2 =>
    rw [hm] at h
    simp only at h
    subst h
    obtain ⟨_, hpt⟩ := motionInstances_eq_ok be context ig k l w w2 ois hm
    obtain ⟨i, hi, hb⟩ := hbad
    obtain ⟨c, cg, e1, e2, e3, _⟩ := hpt i hi
    rcases hb with hb | ⟨c2, cg2, b1, b2, b3⟩
    · rw [hb] at e1
      cases e1
    · rw [b1] at e1
      cases e1
      rw [b2] at e2
      cases e2
      exact e3 b3

theorem motionInstances_assertion [Zero F] [One F] (be : Backend F) (context : Context)
    (ig : InstanceGroup F) (k : Nat) (l : List (Option Nat)) (w : World F)
    (hconv : ∀ off, (be.convertPointerToTraversableHandle off).isSome = true)
    (hlive : ∀ i (hi : i < l.length) c, l[i] = some c → (w.group c).isSome = true)
    (hbad : ∃ i, ∃ hi : i < l.length,
      l[i] = none ∨ ∃ c cg, l[i] = some c ∧ w.group c = some cg ∧ cg.traversable = 0) :
    (motionInstances be context ig k l w).1 = .error .assertion := by
  induction l generalizing k w with
  | nil =>
    obtain ⟨i, hi, _⟩ := hbad
    simp at hi
  | cons child rest ih =>
    unfold motionInstances
    cases child with
    | none => rfl
    | some c =>
      obtain ⟨hnd, hhnd⟩ := Option.isSome_iff_exists.mp
        (hconv (k * be.sizeofOptixMatrixMotionTransform))
      obtain ⟨cg, hcg⟩ := Option.isSome_iff_exists.mp (hlive 0 (by simp) c rfl)
      simp only [hhnd, World.group_call, hcg]
      by_cases hz : cg.traversable = 0
      · simp [hz]
      · simp only [hz, if_false]
        have hrec := ih (k + 1)
          (w.call (.convertPointerToTraversableHandle (k * be.sizeofOptixMatrixMotionTransform)))
          (by
            intro i hi c2 hc2
            exact hlive (i + 1) (by simpa using hi) c2 (by simpa using hc2))
          (by
            obtain ⟨i, hi, hb⟩ := hbad
            cases i with
            | zero =>
              simp only [List.getElem_cons_zero] at hb
              rcases hb with hb | ⟨c2, cg2, b1, b2, b3⟩
              · cases hb
              · cases b1
                rw [hcg] at b2
                cases b2
                exact absurd b3 hz
            | succ i =>
              exact ⟨i, by simpa using hi, by simpa using hb⟩)
        cases hm : motionInstances be context ig (k + 1) rest
          (w.call (.convertPointerToTraversableHandle
            (k * be.sizeofOptixMatrixMotionTransform))) with
        | mk r w2 =>
          rw [hm] at hrec
          simp only at hrec
          subst hrec
          rfl

theorem forChildren_of_cases {α : Type} (body : Nat → Option Nat → Except Failure α)
    (k : Nat) (l : List (Option Nat)) (e : Failure)
    (hall : ∀ i (hi : i < l.length),
      (∃ a, body (k + i) l[i] = .ok a) ∨ body (k + i) l[i] = .error e) :
    (∃ as, forChildren body k l = .ok as) ∨ forChildren body k l = .error e := by
  by_cases hbad : ∃ i, ∃ hi : i < l.length, body (k + i) l[i] = .error e
  · exact Or.inr (forChildren_error body k l e hall hbad)
  · left
    apply forChildren_total
    intro i hi
    rcases hall i hi with h | h
    · exact h
    · exact absurd ⟨i, hi, h⟩ hbad

theorem static_bad (FULL_REBUILD : Bool) (be : Backend F) (context : Context)
    (self : Nat) (w : World F) (g : Group F) (ig : InstanceGroup F)
    (hg : w.group self = some g) (hig : g.instanceGroup = some ig)
    (ht0 : ig.transforms0.isSome = true)
    (hlive : ∀ i (hi : i < ig.children.length) c, ig.children[i] = some c →
      (w.group c).isSome = true)
    (hbad : ∃ i, ∃ hi : i < ig.children.length,
      ig.children[i] = none ∨
        ∃ c cg, ig.children[i] = some c ∧ w.group c = some cg ∧ cg.traversable = 0) :
    (buildOrRefit_staticInstances FULL_REBUILD be context self w).1 ≠ .ok ∧
    (∀ c ∈ (buildOrRefit_staticInstances FULL_REBUILD be context self w).2.calls,
      c ∈ w.calls ∨ c = BackendCall.deviceContextGetProperty ∨
        ∃ off, c = BackendCall.convertPointerToTraversableHandle off) ∧
    (∀ limit, be.maxInstancesPerIAS = some limit → ig.children.length ≤ limit →
      (buildOrRefit_staticInstances FULL_REBUILD be context self w).1 = .fail .assertion) := by
  have hloop : forChildren (staticInstance context w ig) 0 ig.children = .error .assertion := by
    apply forChildren_error
    · intro i hi
      exact (staticInstance_cases context w ig (0 + i) ig.children[i] ht0
        (fun c hc => hlive i hi c hc)).1
    · obtain ⟨i, hi, hb⟩ := hbad
      exact ⟨i, hi, (staticInstance_cases context w ig (0 + i) ig.children[i] ht0
        (fun c hc => hlive i hi c hc)).2 hb⟩
  have hsame : staticInstance context
      (World.call { groups := w.groups, activeDevice := context.cudaDeviceID, calls := w.calls }
        .deviceContextGetProperty) ig
        = staticInstance context w ig := rfl
  unfold buildOrRefit_staticInstances
  simp only [hg, hig]
  split
  · exact ⟨by simp, fun c hc => Or.inl hc, fun _ _ _ => rfl⟩
  · simp only [Context.pushActive]
    split
    · rename_i hcap
      refine ⟨by simp, ?_, ?_⟩
      · intro c hc
        simp only [World.calls_call, List.mem_append, List.mem_singleton] at hc
        rcases hc with hc | hc
        · exact Or.inl hc
        · exact Or.inr (Or.inl hc)
      · intro limit hlimit hcount
        rw [hlimit] at hcap
        simp only [Option.getD_some] at hcap
        omega
    · rw [hsame, hloop]
      refine ⟨by simp, ?_, fun _ _ _ => rfl⟩
      intro c hc
      simp only [World.calls_call, List.mem_append, List.mem_singleton] at hc
      rcases hc with hc | hc
      · exact Or.inl hc
      · exact Or.inr (Or.inl hc)

theorem motion_bad [Zero F] [One F] (FULL_REBUILD : Bool) (be : Backend F)
    (context : Context) (self : Nat) (w : World F) (g : Group F) (ig : InstanceGroup F)
    (hg : w.group self = some g) (hig : g.instanceGroup = some ig)
    (ht0 : ig.transforms0.isSome = true)
    (hlive : ∀ i (hi : i < ig.children.length) c, ig.children[i] = some c →
      (w.group c).isSome = true)
    (hbad : ∃ i, ∃ hi : i < ig.children.length,
      ig.children[i] = none ∨
        ∃ c cg, ig.children[i] = some c ∧ w.group c = some cg ∧ cg.traversable = 0) :
    (buildOrRefit_motionBlur FULL_REBUILD be context self w).1 ≠ .ok ∧
    (∀ c ∈ (buildOrRefit_motionBlur FULL_REBUILD be context self w).2.calls,
      c ∈ w.calls ∨ c = BackendCall.deviceContextGetProperty ∨
        ∃ off, c = BackendCall.convertPointerToTraversableHandle off) ∧
    (∀ limit, be.maxInstancesPerIAS = some limit → ig.children.length ≤ limit →
      (∀ off, (be.convertPointerToTraversableHandle off).isSome = true) →
      (buildOrRefit_motionBlur FULL_REBUILD be context self w).1 = .fail .assertion) := by
  have hsame : motionTransform
      (World.call { groups := w.groups, activeDevice := context.cudaDeviceID, calls := w.calls }
        .deviceContextGetProperty) ig
        = motionTransform w ig := rfl
  have hcalls1 : ∀ c ∈ (World.call
      { groups := w.groups, activeDevice := context.cudaDeviceID, calls := w.calls }
        .deviceContextGetProperty).calls,
      c ∈ w.calls ∨ c = BackendCall.deviceContextGetProperty ∨
        ∃ off, c = BackendCall.convertPointerToTraversableHandle off := by
    intro c hc
    simp only [World.calls_call, List.mem_append, List.mem_singleton] at hc
    rcases hc with hc | hc
    · exact Or.inl hc
    · exact Or.inr (Or.inl hc)
  unfold buildOrRefit_motionBlur
  simp only [hg, hig]
  split
  · exact ⟨by simp, fun c hc => Or.inl hc, fun _ _ _ _ => rfl⟩
  · simp only [Context.pushActive]
    split
    · rename_i hcap
      refine ⟨by simp, hcalls1, ?_⟩
      intro limit hlimit hcount _
      rw [hlimit] at hcap
      simp only [Option.getD_some] at hcap
      omega
    · split
      · exact ⟨by simp, hcalls1, fun _ _ _ _ => rfl⟩
      · rename_i hnone
        have ht1 : ig.transforms1.isSome = true := by
          cases h1 : ig.transforms1 <;> simp_all
        rw [hsame]
        rcases forChildren_of_cases (motionTransform w ig) 0 ig.children .assertion
          (fun i hi => (motionTransform_cases w ig (0 + i) ig.children[i] ht0 ht1
            (fun c hc => hlive i hi c hc)).1) with ⟨mts, hmts⟩ | herr
        · rw [hmts]
          simp only
          have hfield : ∀ c cg, w.group c = some cg → ∃ cg2,
              ((World.call
                { groups := w.groups, activeDevice := context.cudaDeviceID, calls := w.calls }
                .deviceContextGetProperty).setGroup self
                { g with instanceGroup := some { ig with motionTransformsBuffer := mts } }).group c
                = some cg2 ∧
              cg2.traversable = cg.traversable ∧ cg2.getSBTOffset = cg.getSBTOffset :=
            fun c cg hcg => World.group_set_fields w _ self g
              { g with instanceGroup := some { ig with motionTransformsBuffer := mts } }
              hg rfl rfl rfl c cg hcg
          have hlive2 : ∀ i (hi : i < ig.children.length) c, ig.children[i] = some c →
              (((World.call
                { groups := w.groups, activeDevice := context.cudaDeviceID, calls := w.calls }
                .deviceContextGetProperty).setGroup self
                { g with instanceGroup := some { ig with motionTransformsBuffer := mts } }).group
                  c).isSome = true := by
            intro i hi c hc
            obtain ⟨cg, hcg⟩ := Option.isSome_iff_exists.mp (hlive i hi c hc)
            obtain ⟨cg2, f1, _⟩ := hfield c cg hcg
            simp [f1]
          have hbad2 : ∃ i, ∃ hi : i < ig.children.length,
              ig.children[i] = none ∨
                ∃ c cg, ig.children[i] = some c ∧
                  ((World.call
                    { groups := w.groups, activeDevice := context.cudaDeviceID, calls := w.calls }
                    .deviceContextGetProperty).setGroup self
                    { g with instanceGroup := some { ig with motionTransformsBuffer := mts } }).group
                      c = some cg ∧ cg.traversable = 0 := by
            obtain ⟨i, hi, hb⟩ := hbad
            refine ⟨i, hi, ?_⟩
            rcases hb with hb | ⟨c, cg, b1, b2, b3⟩
            · exact Or.inl hb
            · obtain ⟨cg2, f1, f2, _⟩ := hfield c cg b2
              exact Or.inr ⟨c, cg2, b1, f1, by rw [f2]; exact b3⟩
          have hnot := motionInstances_not_ok be context
            { ig with motionTransformsBuffer := mts } 0 ig.children _ hbad2
          have hany := motionInstances_calls_any be context
            { ig with motionTransformsBuffer := mts } 0 ig.children
            ((World.call
              { groups := w.groups, activeDevice := context.cudaDeviceID, calls := w.calls }
              .deviceContextGetProperty).setGroup self
              { g with instanceGroup := some { ig with motionTransformsBuffer := mts } })
          have hass := motionInstances_assertion be context
            { ig with motionTransformsBuffer := mts } 0 ig.children
            ((World.call
              { groups := w.groups, activeDevice := context.cudaDeviceID, calls := w.calls }
              .deviceContextGetProperty).setGroup self
              { g with instanceGroup := some { ig with motionTransformsBuffer := mts } })
          split
          · rename_i e w2 hm
            rw [hm] at hany hass
            refine ⟨by simp, ?_, ?_⟩
            · intro c hc
              rcases hany c hc with h1 | h1
              · exact hcalls1 c h1
              · exact Or.inr (Or.inr h1)
            · intro limit _ _ hconv
              have := hass hconv hlive2 hbad2
              simp only [Except.error.injEq] at this
              rw [this]
          · rename_i ois w2 hm
            have := hnot ois
            rw [hm] at this
            exact absurd rfl this
        · rw [herr]
          exact ⟨by simp, hcalls1, fun _ _ _ _ => rfl⟩

/-- C13 (amended): an instance group whose time-step-0 transforms are present and whose set
slots point to live groups, with at least one slot that is unset or whose child has handle 0.
`buildAccel` and `refitAccel`, and each of the two paths taken on its own as build or as refit,
never return normally, and the only backend calls they add are the instance-limit query and
pointer-to-handle conversions: no sizing, build, update or synchronisation call.  When the child
count is within the limit the backend reports and (for the motion-blur path) the conversions
succeed, the failure is a failed assertion. -/
theorem unset_or_unbuilt_child [Zero F] [One F] (be : Backend F) (context : Context)
    (self : Nat) (w : World F) (g : Group F) (ig : InstanceGroup F)
    (hg : w.group self = some g) (hig : g.instanceGroup = some ig)
    (ht0 : ig.transforms0.isSome = true)
    (hlive : ∀ i (hi : i < ig.children.length) c, ig.children[i] = some c →
      (w.group c).isSome = true)
    (hbad : ∃ i, ∃ hi : i < ig.children.length,
      ig.children[i] = none ∨
        ∃ c cg, ig.children[i] = some c ∧ w.group c = some cg ∧ cg.traversable = 0) :
    ((buildAccel be context self w).1 ≠ .ok ∧
      (∀ c ∈ (buildAccel be context self w).2.calls,
        c ∈ w.calls ∨ c = BackendCall.deviceContextGetProperty ∨
          ∃ off, c = BackendCall.convertPointerToTraversableHandle off) ∧
      (∀ limit, be.maxInstancesPerIAS = some limit → ig.children.length ≤ limit →
        (∀ off, (be.convertPointerToTraversableHandle off).isSome = true) →
        (buildAccel be context self w).1 = .fail .assertion)) ∧
    ((refitAccel be context self w).1 ≠ .ok ∧
      (∀ c ∈ (refitAccel be context self w).2.calls,
        c ∈ w.calls ∨ c = BackendCall.deviceContextGetProperty ∨
          ∃ off, c = BackendCall.convertPointerToTraversableHandle off) ∧
      (∀ limit, be.maxInstancesPerIAS = some limit → ig.children.length ≤ limit →
        (∀ off, (be.convertPointerToTraversableHandle off).isSome = true) →
        (refitAccel be context self w).1 = .fail .assertion)) ∧
    (∀ FULL_REBUILD : Bool,
      ((buildOrRefit_staticInstances FULL_REBUILD be context self w).1 ≠ .ok ∧
        (∀ c ∈ (buildOrRefit_staticInstances FULL_REBUILD be context self w).2.calls,
          c ∈ w.calls ∨ c = BackendCall.deviceContextGetProperty ∨
            ∃ off, c = BackendCall.convertPointerToTraversableHandle off) ∧
        (∀ limit, be.maxInstancesPerIAS = some limit → ig.children.length ≤ limit →
          (buildOrRefit_staticInstances FULL_REBUILD be context self w).1 = .fail .assertion)) ∧
      ((buildOrRefit_motionBlur FULL_REBUILD be context self w).1 ≠ .ok ∧
        (∀ c ∈ (buildOrRefit_motionBlur FULL_REBUILD be context self w).2.calls,
          c ∈ w.calls ∨ c = BackendCall.deviceContextGetProperty ∨
            ∃ off, c = BackendCall.convertPointerToTraversableHandle off) ∧
        (∀ limit, be.maxInstancesPerIAS = some limit → ig.children.length ≤ limit →
          (∀ off, (be.convertPointerToTraversableHandle off).isSome = true) →
          (buildOrRefit_motionBlur FULL_REBUILD be context self w).1 = .fail .assertion))) := by
  have hs := fun b => static_bad b be context self w g ig hg hig ht0 hlive hbad
  have hm := fun b => motion_bad b be context self w g ig hg hig ht0 hlive hbad
  have hw : w.instanceGroup self = some ig := by
    simp [World.instanceGroup, hg, hig]
  obtain ⟨d1, d2⟩ := accel_dispatch be context self w ig hw
  refine ⟨?_, ?_, fun b => ⟨hs b, hm b⟩⟩
  · obtain ht1 | ht1 : ig.transforms1 = none ∨ ig.transforms1.isSome = true := by
      cases ig.transforms1 <;> simp
    · rw [(d1 ht1).1]
      exact ⟨(hs true).1, (hs true).2.1, fun l h1 h2 _ => (hs true).2.2 l h1 h2⟩
    · rw [(d2 ht1).1]
      exact hm true
  · obtain ht1 | ht1 : ig.transforms1 = none ∨ ig.transforms1.isSome = true := by
      cases ig.transforms1 <;> simp
    · rw [(d1 ht1).2]
      exact ⟨(hs false).1, (hs false).2.1, fun l h1 h2 _ => (hs false).2.2 l h1 h2⟩
    · rw [(d2 ht1).2]
      exact hm false

/-- C13 (witness): slot 1 of group 0 of `worldUnset` is unset; on `backendOk`, whose limit is 16,
`buildAccel` ends with a failed assertion. -/
theorem unset_or_unbuilt_child_witness :
    (buildAccel backendOk context1 0 worldUnset).1 ≠ .ok ∧
    (buildAccel backendOk context1 0 worldUnset).1 = .fail .assertion :=
  have h := (unset_or_unbuilt_child backendOk context1 0 worldUnset instanceGroupUnset
    { children := [some 1, none], transforms0 := some slotXfm, transforms1 := none,
      instanceIDs := none, optixInstanceBuffer := [], motionTransformsBuffer := [] }
    rfl rfl rfl
    (by
      intro i hi c hc
      have hi2 : i < 2 := hi
      interval_cases i
      · simp only [List.getElem_cons_zero, Option.some.injEq] at hc
        subst hc
        rfl
      · simp at hc)
    ⟨1, by decide, Or.inl rfl⟩).1
  ⟨h.1, h.2.2 16 rfl (by decide) (fun _ => rfl)⟩

/-- C13 (counterexample): group 0 of `worldUnset` has an unset slot and two slots in all; on a
backend that reports a limit of 1 `buildAccel` ends with the capacity error, not with a failed
assertion.  Group 0 of `worldMotionUnbuilt` has a child with handle 0; on a backend whose
pointer-to-handle conversion fails `buildAccel` ends with the failed backend check. -/
theorem unset_child_capacity_error_first :
    worldUnset.getChild 0 1 = none ∧
    (buildAccel backendLimit1 context1 0 worldUnset).1 = .fail .runtime_error ∧
    worldMotionUnbuilt.getChild 0 0 = some 1 ∧
    worldMotionUnbuilt.traversable 1 = 0 ∧
    (buildAccel backendConvertFails context1 0 worldMotionUnbuilt).1 = .fail .optix_check := by
  decide

/-! ## Reference counts and slots -/

theorem sum_map_set_nat (f : Option (Group F) → Nat) (l : List (Option (Group F))) (i : Nat)
    (a b : Option (Group F)) (h : l[i]? = some a) :
    ((l.set i b).map f).sum + f a = (l.map f).sum + f b := by
  induction l generalizing i with
  | nil => simp at h
  | cons x l ih =>
    cases i with
    | zero =>
      simp at h
      subst h
      simp
      omega
    | succ i =>
      simp at h
      simp only [List.set_cons_succ, List.map_cons, List.sum_cons]
      have := ih i h
      omega

theorem count_set_slot (l : List (Option Nat)) (n : Nat) (x y : Option Nat)
    (h : n < l.length) :
    (l.set n x).count y + (if l[n]? = some y then 1 else 0)
      = l.count y + (if x = y then 1 else 0) := by
  induction l generalizing n with
  | nil => simp at h
  | cons a l ih =>
    cases n with
    | zero =>
      simp only [List.set_cons_zero, List.count_cons, List.getElem?_cons_zero,
        Option.some.injEq, beq_iff_eq]
      omega
    | succ n =>
      simp only [List.set_cons_succ, List.count_cons, List.getElem?_cons_succ]
      have := ih n (by simpa using h)
      omega

theorem World.slotCount_modifyGroup (w : World F) (i id : Nat) (f : Group F → Group F)
    (hf : ∀ g, (f g).instanceGroup = g.instanceGroup) :
    (w.modifyGroup i f).slotCount id = w.slotCount id := by
  unfold World.modifyGroup
  cases h : w.group i with
  | none => rfl
  | some g =>
    have := sum_map_set_nat (entrySlotCount id) w.groups i (some g) (some (f g))
      (w.group_getElem i g h)
    have he : entrySlotCount id (some (f g)) = entrySlotCount id (some g) := by
      simp [entrySlotCount, hf]
    simp only [World.slotCount]
    omega

theorem World.slotCount_setSlot (w : World F) (ig id n c : Nat) (g : Group F)
    (d : InstanceGroup F) (hg : w.group ig = some g) (hd : g.instanceGroup = some d)
    (hn : n < d.children.length) :
    (w.modifyInstanceGroup ig (InstanceGroup.setSlot n c)).slotCount id
        + (if d.children[n]? = some (some id) then 1 else 0)
      = w.slotCount id + (if c = id then 1 else 0) := by
  unfold World.modifyInstanceGroup World.modifyGroup
  rw [hg]
  have h1 := sum_map_set_nat (entrySlotCount id) w.groups ig (some g)
    (some { g with instanceGroup := g.instanceGroup.map (InstanceGroup.setSlot n c) })
    (w.group_getElem ig g hg)
  have h2 := count_set_slot d.children n (some c) (some id) hn
  simp only [Option.some.injEq] at h2
  have e1 : entrySlotCount id (some g) = d.children.count (some id) := by
    simp [entrySlotCount, hd]
  have e2 : entrySlotCount id
      (some { g with instanceGroup := g.instanceGroup.map (InstanceGroup.setSlot n c) })
        = (d.children.set n (some c)).count (some id) := by
    simp [entrySlotCount, hd, InstanceGroup.setSlot]
  simp only [World.slotCount]
  omega

theorem World.childrenLive_modifyGroup (w : World F) (i : Nat) (f : Group F → Group F)
    (hf : ∀ g, (f g).instanceGroup = g.instanceGroup) (hl : w.childrenLive) :
    (w.modifyGroup i f).childrenLive := by
  intro j g ig hj hig o ho
  rw [World.isSome_group_modifyGroup]
  rw [World.group_modifyGroup] at hj
  by_cases hij : i = j
  · subst hij
    simp only [if_true] at hj
    cases h0 : w.group i with
    | none => simp [h0] at hj
    | some g0 =>
      simp only [h0, Option.map_some', Option.some.injEq] at hj
      subst hj
      rw [hf] at hig
      exact hl i g0 ig h0 hig o ho
  · simp only [hij, if_false] at hj
    exact hl j g ig hj hig o ho

theorem World.childrenLive_setSlot (w : World F) (ig n c : Nat)
    (hc : (w.group c).isSome = true) (hl : w.childrenLive) :
    (w.modifyInstanceGroup ig (InstanceGroup.setSlot n c)).childrenLive := by
  intro j g d hj hd o ho
  unfold World.modifyInstanceGroup at hj ⊢
  rw [World.isSome_group_modifyGroup]
  rw [World.group_modifyGroup] at hj
  by_cases hij : ig = j
  · subst hij
    simp only [if_true] at hj
    cases h0 : w.group ig with
    | none => simp [h0] at hj
    | some g0 =>
      simp only [h0, Option.map_some', Option.some.injEq] at hj
      subst hj
      simp only at hd
      cases hd0 : g0.instanceGroup with
      | none => simp [hd0] at hd
      | some d0 =>
        simp only [hd0, Option.map_some', Option.some.injEq] at hd
        subst hd
        simp only [InstanceGroup.setSlot] at ho
        rcases List.mem_or_eq_of_mem_set ho with h1 | h1
        · exact hl ig g0 d0 h0 hd0 o h1
        · simp only [Option.some.injEq] at h1
          subst h1
          exact hc
  · simp only [hij, if_false] at hj
    exact hl j g d hj hd o ho

theorem World.isSome_group_modifyInstanceGroup (w : World F) (i j : Nat)
    (f : InstanceGroup F → InstanceGroup F) :
    ((w.modifyInstanceGroup i f).group j).isSome = (w.group j).isSome := by
  unfold World.modifyInstanceGroup
  exact World.isSome_group_modifyGroup w i j _

theorem instanceGroupSetChild_cases (w : World F) (groupID childNo childGroupID : Int) :
    (instanceGroupSetChild groupID childNo childGroupID w).2 = w ∨
    ∃ ig d c cg, checkGetInstanceGroup w groupID = .ok (ig, d) ∧
      checkGetGroup w childGroupID = .ok (c, cg) ∧
      0 ≤ childNo ∧ childNo.toNat < d.children.length := by
  cases hig : checkGetInstanceGroup w groupID with
  | error e =>
    left
    simp [instanceGroupSetChild, hig]
  | ok p =>
    obtain ⟨ig, d⟩ := p
    cases hc : checkGetGroup w childGroupID with
    | error e =>
      left
      simp [instanceGroupSetChild, hig, hc]
    | ok q =>
      obtain ⟨c, cg⟩ := q
      by_cases hr : childNo < 0 ∨ d.children.length ≤ childNo.toNat
      · left
        simp [instanceGroupSetChild, hig, hc, hr]
      · right
        exact ⟨ig, d, c, cg, rfl, rfl, by omega, by omega⟩

theorem instanceGroupSetChild_invariant (w : World F) (groupID childNo childGroupID : Int)
    (hinv : w.RefCountInvariant)
    (_hdefined : (instanceGroupSetChild groupID childNo childGroupID w).1 ≠ .fail .undefined) :
    (instanceGroupSetChild groupID childNo childGroupID w).2.RefCountInvariant := by
  rcases instanceGroupSetChild_cases w groupID childNo childGroupID with h | h
  · rw [h]
    exact hinv
  · obtain ⟨ig, d, c, cg, hig, hc, hlo, hhi⟩ := h
    rw [instanceGroupSetChild_eq w groupID childNo childGroupID ig d c cg hig hc hlo hhi]
    obtain ⟨_, _, g, hg, hd⟩ := checkGetInstanceGroup_ok w groupID ig d hig
    obtain ⟨_, _, hcg⟩ := checkGetGroup_ok w childGroupID c cg hc
    obtain ⟨href, hlive⟩ := hinv
    have hx : d.children[childNo.toNat]? = some (d.children[childNo.toNat]) :=
      List.getElem?_eq_getElem hhi
    -- the state after the decrement
    have hw1 : ∃ w1 : World F,
        (match (d.children[childNo.toNat]?).join with
          | some old => w.modifyGroup old Group.decRef
          | none => w) = w1 ∧
        (∀ id, w1.refCount id = w.refCount id
          - (if d.children[childNo.toNat]? = some (some id) then 1 else 0)) ∧
        (∀ id, w1.slotCount id = w.slotCount id) ∧
        w1.childrenLive ∧
        (∃ g1, w1.group ig = some g1 ∧ g1.instanceGroup = some d) ∧
        (w1.group c).isSome = true := by
      cases hold : d.children[childNo.toNat] with
      | none =>
        rw [hx, hold]
        refine ⟨w, rfl, ?_, fun _ => rfl, hlive, ⟨g, hg, hd⟩, by simp [hcg]⟩
        intro id
        simp
      | some old =>
        rw [hx, hold]
        have hmem : some old ∈ d.children := by
          rw [← hold]
          exact List.getElem_mem hhi
        have holdlive := hlive ig g d hg hd old hmem
        have hdec : ∀ g : Group F,
            (Group.decRef g).numTimesReferenced = g.numTimesReferenced + (-1) :=
          fun g => by simp [Group.decRef, sub_eq_add_neg]
        refine ⟨w.modifyGroup old Group.decRef, rfl, ?_,
          fun id => World.slotCount_modifyGroup w old id Group.decRef (fun _ => rfl),
          World.childrenLive_modifyGroup w old Group.decRef (fun _ => rfl) hlive,
          World.group_inst_modifyGroup w old ig Group.decRef (fun _ => rfl) g d hg hd,
          by rw [World.isSome_group_modifyGroup]; simp [hcg]⟩
        intro id
        rw [World.refCount_bump w old id (-1) Group.decRef hdec holdlive]
        by_cases hid : id = old
        · subst hid
          simp
          ring
        · have : ¬ old = id := fun e => hid e.symm
          simp [hid, this]
    obtain ⟨w1, hw1eq, r1, s1, l1, ⟨g1, hg1, hd1⟩, c1⟩ := hw1
    rw [hw1eq]
    have c2 : ((w1.modifyInstanceGroup ig (InstanceGroup.setSlot childNo.toNat c)).group
        c).isSome = true := by
      rw [World.isSome_group_modifyInstanceGroup]
      exact c1
    have l2 := World.childrenLive_setSlot w1 ig childNo.toNat c c1 l1
    refine ⟨?_, World.childrenLive_modifyGroup _ c Group.incRef (fun _ => rfl) l2⟩
    intro id
    rw [World.refCount_bump _ c id 1 Group.incRef (fun _ => rfl) c2,
      World.refCount_modifyInstanceGroup, r1 id,
      World.slotCount_modifyGroup _ c id Group.incRef (fun _ => rfl), href id]
    have s2 := World.slotCount_setSlot w1 ig id childNo.toNat c g1 d hg1 hd1 hhi
    rw [s1 id] at s2
    by_cases hA : d.children[childNo.toNat]? = some (some id)
    · by_cases hB : id = c
      · subst hB
        simp only [hA, if_true] at s2 ⊢
        omega
      · have hB2 : ¬ c = id := fun e => hB e.symm
        simp only [hA, hB, hB2, if_true, if_false] at s2 ⊢
        omega
    · by_cases hB : id = c
      · subst hB
        simp only [hA, if_true, if_false] at s2 ⊢
        omega
      · have hB2 : ¬ c = id := fun e => hB e.symm
        simp only [hA, hB, hB2, if_false] at s2 ⊢
        omega

theorem World.group_setGroup (w : World F) (i j : Nat) (g : Group F)
    (hi : i < w.groups.length) :
    (w.setGroup i g).group j = if i = j then some g else w.group j := by
  by_cases hij : i = j
  · subst hij
    simp only [if_true]
    exact World.group_set_self w _ i g hi rfl
  · simp only [hij, if_false]
    exact World.group_set_ne w _ i j g hij rfl

theorem setGroup_fresh_invariant (w : World F) (gid childCount : Nat) (fresh : Group F)
    (hinv : w.RefCountInvariant) (hlt : gid < w.groups.length)
    (hfree : w.group gid = none) (hnew : IsNewInstanceGroup childCount fresh) :
    (w.setGroup gid fresh).RefCountInvariant := by
  obtain ⟨href, hlive⟩ := hinv
  obtain ⟨hrc, d, hd, hch⟩ := hnew
  have hentry : w.groups[gid]? = some none := by
    unfold World.group at hfree
    rw [List.getElem?_eq_getElem hlt] at hfree ⊢
    have hx : w.groups[gid] = none := by simpa [Option.join] using hfree
    rw [hx]
  have hslot : ∀ id, (w.setGroup gid fresh).slotCount id = w.slotCount id := by
    intro id
    have h1 := sum_map_set_nat (entrySlotCount id) w.groups gid none (some fresh) hentry
    have e1 : entrySlotCount id (none : Option (Group F)) = 0 := rfl
    have e2 : entrySlotCount id (some fresh) = 0 := by
      simp [entrySlotCount, hd, hch, List.count_replicate]
    simp only [World.slotCount, World.groups_setGroup]
    omega
  constructor
  · intro id
    rw [hslot id, ← href id]
    unfold World.refCount
    rw [World.group_setGroup w gid id fresh hlt]
    by_cases hid : gid = id
    · subst hid
      simp [hfree, hrc]
    · simp [hid]
  · intro j g ig hj hig o ho
    rw [World.group_setGroup w gid j fresh hlt] at hj
    rw [World.group_setGroup w gid o fresh hlt]
    by_cases hij : gid = j
    · simp only [hij, if_true, Option.some.injEq] at hj
      subst hj
      rw [hd] at hig
      cases hig
      rw [hch] at ho
      have := List.eq_of_mem_replicate ho
      cases this
    · simp only [hij, if_false] at hj
      have := hlive j g ig hj hig o ho
      by_cases hio : gid = o
      · simp [hio]
      · simp [hio, this]

theorem instanceGroupCreate_children_invariant (gid : Nat) (ids : Nat → Nat)
    (remaining childID : Nat) (w : World F) (hinv : w.RefCountInvariant)
    (hgrp : ∃ g d, w.group gid = some g ∧ g.instanceGroup = some d ∧
      childID + remaining ≤ d.children.length ∧
      ∀ j, childID ≤ j → j < d.children.length → d.children[j]? = some none) :
    (instanceGroupCreate_children gid ids childID remaining w).2.RefCountInvariant := by
  induction remaining generalizing childID w with
  | zero => exact hinv
  | succ remaining ih =>
    unfold instanceGroupCreate_children
    simp only
    split
    · exact hinv
    · split
      · exact hinv
      · split
        · exact hinv
        · rename_i cg hcg
          obtain ⟨g, d, hg, hd, hlen, hnone⟩ := hgrp
          obtain ⟨href, hlive⟩ := hinv
          have hn : childID < d.children.length := by omega
          have c0 : (w.group (uint32ToInt (ids childID)).toNat).isSome = true := by
            simp [hcg]
          obtain ⟨g1, hg1, hd1⟩ := World.group_inst_modifyGroup w
            (uint32ToInt (ids childID)).toNat gid Group.incRef (fun _ => rfl) g d hg hd
          have l1 := World.childrenLive_modifyGroup w (uint32ToInt (ids childID)).toNat
            Group.incRef (fun _ => rfl) hlive
          have c1 : ((w.modifyGroup (uint32ToInt (ids childID)).toNat Group.incRef).group
              (uint32ToInt (ids childID)).toNat).isSome = true := by
            rw [World.isSome_group_modifyGroup]
            exact c0
          apply ih
          · constructor
            · intro id
              rw [World.refCount_modifyInstanceGroup,
                World.refCount_bump w _ id 1 Group.incRef (fun _ => rfl) c0, href id]
              have s2 := World.slotCount_setSlot
                (w.modifyGroup (uint32ToInt (ids childID)).toNat Group.incRef) gid id childID
                (uint32ToInt (ids childID)).toNat g1 d hg1 hd1 hn
              rw [World.slotCount_modifyGroup w _ id Group.incRef (fun _ => rfl)] at s2
              have hA : ¬ d.children[childID]? = some (some id) := by
                rw [hnone childID (le_refl _) hn]
                simp
              by_cases hB : id = (uint32ToInt (ids childID)).toNat
              · rw [← hB] at s2 ⊢
                simp only [hA, if_true, if_false] at s2 ⊢
                omega
              · have hB2 : ¬ (uint32ToInt (ids childID)).toNat = id := fun e => hB e.symm
                simp only [hA, hB, hB2, if_false] at s2 ⊢
                omega
            · exact World.childrenLive_setSlot _ gid childID _ c1 l1
          · refine ⟨{ g1 with instanceGroup := g1.instanceGroup.map (InstanceGroup.setSlot childID (uint32ToInt (ids childID)).toNat) },
              InstanceGroup.setSlot childID (uint32ToInt (ids childID)).toNat d, ?_, ?_, ?_, ?_⟩
            · unfold World.modifyInstanceGroup
              rw [World.group_modifyGroup]
              simp [hg1]
            · simp [hd1]
            · simp only [InstanceGroup.setSlot, List.length_set]
              omega
            · intro j hj1 hj2
              simp only [InstanceGroup.setSlot, List.length_set] at hj2 ⊢
              rw [List.getElem?_set_ne (by omega)]
              exact hnone j (by omega) hj2

theorem instanceGroupCreate_invariant (newInstanceGroup : Nat → Group F)
    (hnew : ∀ n, IsNewInstanceGroup n (newInstanceGroup n))
    (groupID : Int) (childCount : Nat) (childGroupIDs : Option (Nat → Nat)) (w : World F)
    (hinv : w.RefCountInvariant) :
    (instanceGroupCreate newInstanceGroup groupID childCount childGroupIDs w).2.RefCountInvariant
      := by
  unfold instanceGroupCreate
  split
  · exact hinv
  · split
    · exact hinv
    · split
      · exact hinv
      · rename_i _ hlen hsome
        have hlt : groupID.toNat < w.groups.length := by omega
        have hfree : w.group groupID.toNat = none := by
          cases h : w.group groupID.toNat with
          | none => rfl
          | some g => simp [h] at hsome
        have hinv2 := setGroup_fresh_invariant w groupID.toNat childCount
          (newInstanceGroup childCount) hinv hlt hfree (hnew childCount)
        simp only
        split
        · exact hinv2
        · rename_i ids
          obtain ⟨_, d, hd, hch⟩ := hnew childCount
          apply instanceGroupCreate_children_invariant _ _ _ _ _ hinv2
          refine ⟨newInstanceGroup childCount, d,
            World.group_set_self w _ groupID.toNat _ hlt rfl, hd, ?_, ?_⟩
          · rw [hch]
            simp
          · intro j _ hj
            rw [hch] at hj ⊢
            simp only [List.length_replicate] at hj
            simp [List.getElem?_replicate, hj]

theorem empty_invariant (n : Nat) (activeDevice : Int) (calls : List (BackendCall F)) :
    (World.mk (List.replicate n (none : Option (Group F))) activeDevice
      calls).RefCountInvariant := by
  have hgrp : ∀ j, (World.mk (List.replicate n (none : Option (Group F))) activeDevice
      calls).group j = none := by
    intro j
    unfold World.group
    simp only [List.getElem?_replicate]
    split <;> rfl
  constructor
  · intro id
    unfold World.refCount
    rw [hgrp id]
    have : (World.mk (List.replicate n (none : Option (Group F))) activeDevice
        calls).slotCount id = 0 := by
      unfold World.slotCount
      simp only [List.map_replicate, List.sum_replicate]
      simp [entrySlotCount]
    rw [this]
    rfl
  · intro j g ig hj
    rw [hgrp j] at hj
    cases hj

end owl.ll
